import Mathlib

/-!
# vsdc-backend: item codes, required fields and the request handlers around them

A shallow embedding of the logic of `src/index.js` and `src/firebaseAdmin.js`:

* `generateItemCode` (lines 192-199), the item-code formatter;
* the required-field check of `POST /api/items` (lines 638-646) and the handler
  around it (lines 591-760);
* the handler of `POST /api/vsdc/generate-item-code` (lines 1127-1153);
* the middleware `verifyFirebaseToken` (lines 243-268);
* the HTTP wrapper `callVsdcApi` (lines 204-238);
* the time stamp `resultDt` of the success responses (lines 311, 746);
* the credential loading at the top of both files, with the `dotenv` call of
  `src/index.js`.

The document store, the token verifier and the HTTP client are external
collaborators: each is an argument of the function that uses it. A handler is
a function of `req.body`, whatever value it holds.

## Values

JavaScript strings are sequences of UTF-16 code units and `.length` counts code
units, so a string is modelled as a list of code units (`JSString`). `js` turns
a Lean string literal into that representation.

`JSVal` holds the values a request body can carry (what `JSON.parse` produces)
together with `undefined`, which is what an omitted argument or an absent
property evaluates to. Numbers are kept in decimal form `± s × 10 ^ e`; every
finite double has such a form (its shortest round-trip digits), and the
operations the program applies to a number (truthiness, `=== 0`, `ToString`)
are functions of that form. `+0` and `-0` are not told apart by any of these
operations and are both `fin _ 0 _`.

## Randomness

`Math.floor(Math.random() * 10000000)` is the only use of the random source.
The embedding takes the integer it evaluates to as an explicit argument
(`draw`), so that a function of the program stays a function.
-/

namespace Vsdc

/-! ## Strings -/

/-- One UTF-16 code unit. -/
abbrev CodeUnit := Fin 65536

/-- A JavaScript string: its sequence of UTF-16 code units. -/
abbrev JSString := List CodeUnit

/-- UTF-16 encoding of one Unicode scalar value. -/
def utf16 (c : Char) : List CodeUnit :=
  if c.toNat < 65536 then [Fin.ofNat c.toNat]
  else [Fin.ofNat (55296 + (c.toNat - 65536) / 1024),
        Fin.ofNat (56320 + (c.toNat - 65536) % 1024)]

/-- The JavaScript string written by a literal. -/
def js (s : String) : JSString := s.toList.flatMap utf16

/-- The code unit of the decimal digit `d` (`'0'` is 48). -/
def digitUnit (d : Nat) : CodeUnit := Fin.ofNat (48 + d)

/-- A code unit is one of `'0'` .. `'9'`. -/
def isDigit (c : CodeUnit) : Bool := decide (48 ≤ c.val) && decide (c.val ≤ 57)

/-- Reads a string of decimal digits as a number, most significant digit first. -/
def decimalValue (s : JSString) : Nat :=
  s.foldl (fun acc c => acc * 10 + (c.val - 48)) 0

/-- The method `String.prototype.padStart(targetLength, padString)`: when the string is
shorter than `targetLength` and the filler is not empty, the filler is
repeated, cut to the missing length and put in front. -/
def padStart (s : JSString) (targetLength : Nat) (padString : JSString) : JSString :=
  if targetLength ≤ s.length then s
  else if padString = [] then s
  else
    let fillLen := targetLength - s.length
    ((List.replicate fillLen padString).flatten.take fillLen) ++ s

/-! ## Numbers -/

/-- A JavaScript number: `NaN`, an infinity, or the finite value
`(-1)^neg × s × 10^e`. -/
inductive JSNumber where
  | nan
  | inf (neg : Bool)
  | fin (neg : Bool) (s : Nat) (e : Int)

/-- The non-negative integer `n` as a number. -/
def JSNumber.ofNat (n : Nat) : JSNumber := .fin false n 0

/-- Decimal digits of `n`, least significant first (`fuel` bounds the number of
digits produced; `n` itself is always enough). -/
def digitsLE : Nat → Nat → List Nat
  | 0, _ => []
  | fuel + 1, n => if n = 0 then [] else (n % 10) :: digitsLE fuel (n / 10)

/-- The decimal digits of a positive integer, most significant first, as a
string (empty for zero). -/
def decimal (n : Nat) : JSString := ((digitsLE n n).reverse).map digitUnit

/-- Removes the trailing zero digits of `s`, raising the exponent by one for
each: the result denotes the same value with as few digits as possible. -/
def stripZeros : Nat → Nat → Int → Nat × Int
  | 0, s, e => (s, e)
  | fuel + 1, s, e =>
    if s ≠ 0 ∧ s % 10 = 0 then stripZeros fuel (s / 10) (e + 1) else (s, e)

/-- The operation `Number::toString` for radix 10 (ECMA-262, 6.1.6.1.20): with `k` the number
of significant digits and `n` the position of the decimal point, plain
notation is used for `-5 ≤ n ≤ 21` and scientific notation otherwise. -/
def numberToString : JSNumber → JSString
  | .nan => js "NaN"
  | .inf neg => if neg then js "-Infinity" else js "Infinity"
  | .fin neg s e =>
    if s = 0 then js "0"
    else
      let sign : JSString := if neg then js "-" else []
      let m := stripZeros s s e
      let ds := decimal m.1
      let k : Int := ds.length
      let n : Int := m.2 + k
      if -5 ≤ n ∧ n ≤ 21 then
        if k ≤ n then sign ++ ds ++ List.replicate (n - k).toNat (digitUnit 0)
        else if 0 < n then sign ++ ds.take n.toNat ++ js "." ++ ds.drop n.toNat
        else sign ++ js "0." ++ List.replicate (-n).toNat (digitUnit 0) ++ ds
      else
        let exponentSign : JSString := if n < 0 then js "-" else js "+"
        let ex : JSString := decimal (n - 1).natAbs
        if k = 1 then sign ++ ds ++ js "e" ++ exponentSign ++ ex
        else sign ++ ds.take 1 ++ js "." ++ ds.drop 1 ++ js "e" ++ exponentSign ++ ex

/-! ## Values -/

/-- The values a request can carry, and `undefined`. An object is the list of
its members in the order written; of two members with the same key the later
one is the property's value. -/
inductive JSVal where
  | undefined
  | null
  | bool (b : Bool)
  | num (x : JSNumber)
  | str (s : JSString)
  | arr (items : List JSVal)
  | obj (members : List (JSString × JSVal))

/-- The exceptions the modelled code can raise. -/
inductive JSError where
  | typeError
  deriving DecidableEq, Repr

deriving instance DecidableEq for Except

/-- The conversion `ToBoolean`: the falsy values are `undefined`, `null`, `false`, `±0`, `NaN`
and the empty string. -/
def truthy : JSVal → Bool
  | .undefined => false
  | .null => false
  | .bool b => b
  | .num .nan => false
  | .num (.inf _) => true
  | .num (.fin _ s _) => decide (s ≠ 0)
  | .str s => decide (s ≠ [])
  | .arr _ => true
  | .obj _ => true

/-- The comparison `value === 0`: true for the numbers `+0` and `-0` only. -/
def strictEqualsZero : JSVal → Bool
  | .num (.fin _ s _) => decide (s = 0)
  | _ => false

/-- An object has an own member with this key. -/
def hasOwn (members : List (JSString × JSVal)) (key : JSString) : Bool :=
  members.any (fun kv => decide (kv.1 = key))

mutual
/-- The conversion `ToString`, as applied by a template literal. An array is rendered by
`Array.prototype.join`. A plain object is rendered by `Object.prototype.toString`
unless an own member named `toString` shadows it: such a member is never
callable, the inherited `valueOf` returns the object itself, and the conversion
raises a `TypeError`. -/
def toStr : JSVal → Except JSError JSString
  | .undefined => .ok (js "undefined")
  | .null => .ok (js "null")
  | .bool b => .ok (if b then js "true" else js "false")
  | .num x => .ok (numberToString x)
  | .str s => .ok s
  | .arr items => joinItems items
  | .obj members =>
    if hasOwn members (js "toString") then .error .typeError
    else .ok (js "[object Object]")
/-- The method `Array.prototype.join(",")`: the elements are rendered in order with a
comma between two of them; `undefined` and `null` elements are rendered as the
empty string. -/
def joinItems : List JSVal → Except JSError JSString
  | [] => .ok []
  | v :: rest =>
    let next : Except JSError JSString :=
      match v with
      | .undefined => .ok []
      | .null => .ok []
      | w => toStr w
    match next with
    | .error err => .error err
    | .ok a =>
      match rest with
      | [] => .ok a
      | _ :: _ =>
        match joinItems rest with
        | .error err => .error err
        | .ok b => .ok (a ++ js "," ++ b)
end

/-- A parameter with a default value: the default is taken when the argument
is `undefined` (omitted), and only then. -/
def orDefault (arg dflt : JSVal) : JSVal :=
  match arg with
  | .undefined => dflt
  | v => v

/-! ## `generateItemCode` (src/index.js, lines 192-199) -/

/-- The item-code helper.
`draw` is the value of `Math.floor(Math.random() * 10000000)`; it is only used
when the sequence is falsy. -/
def generateItemCode (orgnNatCd itemTyCd pkgUnitCd qtyUnitCd sequence : JSVal)
    (draw : Nat) : Except JSError JSString :=
  let orgnNatCd := orDefault orgnNatCd (.str (js "RW"))
  let itemTyCd := orDefault itemTyCd (.str (js "2"))
  let pkgUnitCd := orDefault pkgUnitCd (.str (js "NT"))
  let qtyUnitCd := orDefault qtyUnitCd (.str (js "U"))
  let sequence := orDefault sequence .null
  let sequence :=
    if !(truthy sequence) then
      JSVal.str (padStart (numberToString (JSNumber.ofNat draw)) 7 (js "0"))
    else sequence
  match toStr orgnNatCd with
  | .error err => .error err
  | .ok a =>
    match toStr itemTyCd with
    | .error err => .error err
    | .ok b =>
      match toStr pkgUnitCd with
      | .error err => .error err
      | .ok c =>
        match toStr qtyUnitCd with
        | .error err => .error err
        | .ok d =>
          match toStr sequence with
          | .error err => .error err
          | .ok e => .ok (a ++ b ++ c ++ d ++ e)

/-- An argument that is either omitted (`none`, evaluating to `undefined`) or a
string. -/
def argOf : Option JSString → JSVal
  | none => .undefined
  | some s => .str s

/-! ## Required-field check of `POST /api/items` (src/index.js, lines 597-646) -/

/-- The value a destructuring pattern binds to `key`: the member's value, the
later of two members with the same key, and `undefined` when there is none. -/
def getProp (members : List (JSString × JSVal)) (key : JSString) : JSVal :=
  members.foldl (fun acc kv => if kv.1 = key then kv.2 else acc) .undefined

/-- The keys of the `requiredFields` object literal, in the order written. -/
def requiredFieldNames : List JSString :=
  [js "tin", js "bhfId", js "itemCd", js "itemClsCd", js "itemTyCd", js "itemNm",
   js "orgnNatCd", js "pkgUnitCd", js "qtyUnitCd", js "taxTyCd", js "dftPrc",
   js "isrcAplcbYn", js "useYn", js "regrNm", js "regrId", js "modrNm", js "modrId"]

/-- The entries `Object.entries(requiredFields)`: each required key with the value
destructured from the request body. -/
def requiredFields (data : List (JSString × JSVal)) : List (JSString × JSVal) :=
  requiredFieldNames.map (fun key => (key, getProp data key))

/-- The missing-field list:
`entries.filter(([_, value]) => !value && value !== 0).map(([key]) => key)`. -/
def missingFields (entries : List (JSString × JSVal)) : List JSString :=
  (entries.filter (fun kv => !(truthy kv.2) && !(strictEqualsZero kv.2))).map (fun kv => kv.1)

/-! ## Responses and request bodies -/

/-- The operator `a || b`: the left operand when it is truthy, the right one
otherwise. -/
def orElse (a b : JSVal) : JSVal := if truthy a then a else b

/-- The method `Array.prototype.join(separator)` on an array of strings. -/
def joinStrings (separator : JSString) : List JSString → JSString
  | [] => []
  | [x] => x
  | x :: y :: rest => x ++ separator ++ joinStrings separator (y :: rest)

/-- The expression `new Date().toISOString().replace(/[-:]/g, "").slice(0, 14)`,
as a function of the ISO string: every `-` (45) and `:` (58) is removed and the
first 14 code units are kept. -/
def resultDt (iso : JSString) : JSString :=
  (iso.filter (fun c => !(decide (c = 45) || decide (c = 58)))).take 14

/-- The `error` member of a response: a text the code fixes, or the `message`
of the exception a `catch` clause received, whose text is chosen by whatever
raised it. -/
inductive ErrorText where
  | text (s : JSString)
  | exceptionMessage

/-- A response `res.status(status).json(...)`: the status code and the members
of the JSON document. `error` and `resultDt` are `none` and `data` is empty
when the document has no such member. -/
structure Response where
  status : Nat
  resultCd : JSString
  resultMsg : JSString
  error : Option ErrorText
  resultDt : Option JSString
  data : List (JSString × JSVal)

/-- The response of every `catch` clause of the item endpoints. -/
def serverError : Response :=
  { status := 500, resultCd := js "999", resultMsg := js "Unknown server error",
    error := some .exceptionMessage, resultDt := none, data := [] }

/-- Object destructuring of `body` into named constants: it raises a `TypeError`
on `undefined` and `null`. On an object the names are bound to its members;
none of the names the handlers read is a property of an array, a string, a
number or a boolean, so on these every name is bound to `undefined`. -/
def destructure : JSVal → Except JSError (List (JSString × JSVal))
  | .undefined => .error .typeError
  | .null => .error .typeError
  | .obj members => .ok members
  | _ => .ok []

/-- Whether `Number(value)` raises: a primitive converts without an exception;
an array or an object is first converted to a primitive, which goes through
the same `join` / `toString` steps as `ToString` and raises when they do. -/
def numberConversion : JSVal → Except JSError Unit
  | .arr items =>
    match toStr (.arr items) with
    | .error err => .error err
    | .ok _ => .ok ()
  | .obj members =>
    match toStr (.obj members) with
    | .error err => .error err
    | .ok _ => .ok ()
  | _ => .ok ()

/-! ## `POST /api/items` (src/index.js, lines 591-760) -/

/-- The document store, an external collaborator: whether building the
reference of a document path succeeds, and whether `set` on it resolves. -/
structure Store where
  refOk : List JSVal → Bool
  setOk : List JSVal → Bool

/-- A document written by `set`: its path and its `itemCd` member (the other
members of the item document are not represented). -/
structure Write where
  path : List JSVal
  itemCd : JSVal

/-- The `Number(...)` conversions of the item document, in the order of the
object literal: `dftPrc`, `grpPrcL1` .. `grpPrcL5`, `sftyQty`, `quantity`. The
guards `!== undefined` and `!== ""` only skip values whose conversion cannot
raise. -/
def itemDocConversions (data : List (JSString × JSVal)) : Except JSError Unit :=
  [js "dftPrc", js "grpPrcL1", js "grpPrcL2", js "grpPrcL3", js "grpPrcL4", js "grpPrcL5",
   js "sftyQty", js "quantity"].foldl
    (fun acc key =>
      match acc with
      | .error err => .error err
      | .ok _ => numberConversion (getProp data key))
    (.ok ())

/-- The 400 response of the required-field check. -/
def missingFieldsResponse (missing : List JSString) : Response :=
  { status := 400, resultCd := js "910", resultMsg := js "Request parameter error",
    error := some (.text (js "Missing required fields: " ++ joinStrings (js ", ") missing)),
    resultDt := none, data := [] }

/-- The success response of `POST /api/items`. -/
def itemSavedResponse (finalItemCd : JSVal) (iso : JSString) : Response :=
  { status := 200, resultCd := js "000", resultMsg := js "It is succeeded",
    error := none, resultDt := some (resultDt iso),
    data := [(js "itemId", finalItemCd),
      (js "message", .str (js "Item saved successfully and ready for VSDC synchronization"))] }

/-- The expression `itemCd || generateItemCode(orgnNatCd, itemTyCd, pkgUnitCd, qtyUnitCd)`:
the generator is called only when `itemCd` is falsy. -/
def finalItemCd (data : List (JSString × JSVal)) (draw : Nat) : Except JSError JSVal :=
  if truthy (getProp data (js "itemCd")) then .ok (getProp data (js "itemCd"))
  else
    match generateItemCode (getProp data (js "orgnNatCd")) (getProp data (js "itemTyCd"))
        (getProp data (js "pkgUnitCd")) (getProp data (js "qtyUnitCd")) .undefined draw with
    | .error err => .error err
    | .ok code => .ok (.str code)

/-- The handler of `POST /api/items`, run after `verifyFirebaseToken` has set
`req.user`. `body` is `req.body`, `draw` the value of the random source, `iso`
the ISO time of the response. The result is the response and the documents
written, in order. Any exception takes the `catch` clause. -/
def postItems (body : JSVal) (draw : Nat) (iso : JSString) (store : Store) :
    Response × List Write :=
  match destructure body with
  | .error _ => (serverError, [])
  | .ok data =>
    let missing := missingFields (requiredFields data)
    if missing.length > 0 then (missingFieldsResponse missing, [])
    else
      match finalItemCd data draw with
      | .error _ => (serverError, [])
      | .ok itemCd =>
        let inventoryPath : List JSVal :=
          [.str (js "admin"), getProp data (js "adminId"),
           .str (js "district"), getProp data (js "districtId"),
           .str (js "school"), getProp data (js "schoolId"),
           .str (js "inventory"), itemCd]
        if !(store.refOk inventoryPath) then (serverError, [])
        else
          match itemDocConversions data with
          | .error _ => (serverError, [])
          | .ok _ =>
            if !(store.setOk inventoryPath) then (serverError, [])
            else
              let first : Write := { path := inventoryPath, itemCd := itemCd }
              let vsdcPath : List JSVal := [.str (js "vsdc_items"), itemCd]
              if !(store.refOk vsdcPath) then (serverError, [first])
              else if !(store.setOk vsdcPath) then (serverError, [first])
              else
                (itemSavedResponse itemCd iso,
                 [first, { path := vsdcPath, itemCd := itemCd }])

/-! ## `POST /api/vsdc/generate-item-code` (src/index.js, lines 1127-1153) -/

/-- The success response of the item-code helper endpoint. -/
def itemCodeResponse (itemCode : JSString) : Response :=
  { status := 200, resultCd := js "000", resultMsg := js "Item code generated",
    error := none, resultDt := none,
    data := [(js "itemCode", .str itemCode),
      (js "format", .str (js
        "Country(2) + ProductType(1) + PackagingUnit(2) + QuantityUnit(2) + Sequence(7)"))] }

/-- The handler of `POST /api/vsdc/generate-item-code`. -/
def generateItemCodeHandler (body : JSVal) (draw : Nat) : Response :=
  match destructure body with
  | .error _ => serverError
  | .ok data =>
    match generateItemCode
        (orElse (getProp data (js "orgnNatCd")) (.str (js "RW")))
        (orElse (getProp data (js "itemTyCd")) (.str (js "2")))
        (orElse (getProp data (js "pkgUnitCd")) (.str (js "NT")))
        (orElse (getProp data (js "qtyUnitCd")) (.str (js "U")))
        .undefined draw with
    | .error _ => serverError
    | .ok itemCode => itemCodeResponse itemCode

/-! ## `verifyFirebaseToken` (src/index.js, lines 243-268) -/

/-- The method `String.prototype.startsWith(searchString)`. -/
def startsWith (s searchString : JSString) : Bool := searchString.isPrefixOf s

/-- The method `String.prototype.split(separator)` for a separator of one code
unit: the segments between the separators, `[""]` for the empty string. -/
def split : JSString → CodeUnit → List JSString
  | [], _ => [[]]
  | c :: rest, separator =>
    if c = separator then [] :: split rest separator
    else
      match split rest separator with
      | [] => [[c]]
      | segment :: segments => (c :: segment) :: segments

/-- What the middleware does with a request: it answers it, or it calls `next`
with `req.user` set. -/
inductive MiddlewareOutcome where
  | responded (response : Response)
  | next (user : JSVal)

/-- The two 401 responses of the middleware. -/
def unauthorized (message : JSString) : Response :=
  { status := 401, resultCd := js "401", resultMsg := message,
    error := some (.text message), resultDt := none, data := [] }

/-- The middleware `verifyFirebaseToken`. `authorization` is
`req.headers.authorization` (`none` when the header is absent), `verifyIdToken`
the external verifier (`none` when it rejects). The result is the outcome and
the arguments of the calls made to the verifier, in order. The handlers that
`next` runs are `async`, so `next()` does not raise inside the `try`. -/
def verifyFirebaseToken (authorization : Option JSString)
    (verifyIdToken : JSVal → Option JSVal) : MiddlewareOutcome × List JSVal :=
  match authorization with
  | none => (.responded (unauthorized (js "No token provided")), [])
  | some authHeader =>
    if authHeader = [] ∨ startsWith authHeader (js "Bearer ") = false then
      (.responded (unauthorized (js "No token provided")), [])
    else
      let token : JSVal :=
        match (split authHeader 32)[1]? with
        | some segment => .str segment
        | none => .undefined
      match verifyIdToken token with
      | some decoded => (.next decoded, [token])
      | none => (.responded (unauthorized (js "Invalid token")), [token])

/-! ## `callVsdcApi` (src/index.js, lines 204-238) -/

/-- The members of `VSDC_CONFIG` the program reads; they are fixed at start-up
from the environment. -/
structure VsdcConfig where
  testUrl : JSString
  productionUrl : JSString
  currentEnv : JSString
  defaultBhfId : JSString

/-- The property names every object inherits from `Object.prototype`. -/
def objectPrototypeNames : List JSString :=
  [js "constructor", js "__defineGetter__", js "__defineSetter__", js "hasOwnProperty",
   js "__lookupGetter__", js "__lookupSetter__", js "isPrototypeOf",
   js "propertyIsEnumerable", js "toString", js "valueOf", js "__proto__",
   js "toLocaleString"]

/-- The expression `VSDC_CONFIG[VSDC_CONFIG.currentEnv].ebmApiUrl`: the URL of
the `test` or `production` member; `undefined` when the key names a member or
an inherited property that has no `ebmApiUrl`; a `TypeError` when the key names
nothing. -/
def ebmApiUrl (config : VsdcConfig) : Except JSError JSVal :=
  if config.currentEnv = js "test" then .ok (.str config.testUrl)
  else if config.currentEnv = js "production" then .ok (.str config.productionUrl)
  else if config.currentEnv = js "currentEnv" ∨ config.currentEnv = js "defaultBhfId" ∨
      config.currentEnv ∈ objectPrototypeNames then .ok .undefined
  else .error .typeError

/-- The request handed to `axios`. -/
structure AxiosRequest where
  method : JSVal
  url : JSString
  data : JSVal
  headers : List (JSString × JSString)
  timeout : Nat

/-- An upstream HTTP response. -/
structure AxiosResponse where
  data : JSVal
  status : Nat

/-- The error `axios` rejects with; `response` is present when the upstream
answered. -/
structure AxiosError where
  message : JSString
  response : Option AxiosResponse

/-- The `error` member of a failed result: `error.response?.data || error.message`. -/
inductive ApiError where
  | upstream (data : JSVal)
  | message (text : ErrorText)

/-- The object `callVsdcApi` resolves with. -/
inductive ApiResult where
  | succeeded (data : JSVal) (status : Nat)
  | failed (error : ApiError) (status : Nat)

/-- The result built by the `catch` clause from the error of `axios`. -/
def axiosFailure (err : AxiosError) : ApiResult :=
  .failed
    (match err.response with
     | some r => if truthy r.data then .upstream r.data else .message (.text err.message)
     | none => .message (.text err.message))
    (match err.response with
     | some r => if r.status ≠ 0 then r.status else 500
     | none => 500)

/-- The result built by the `catch` clause from an exception of the runtime,
which has no `response`. -/
def runtimeFailure : ApiResult := .failed (.message .exceptionMessage) 500

/-- The statements of `callVsdcApi` before the call of `axios`: the base URL is
looked up, the URL and the headers are built. Any of the three string
conversions can raise. -/
def vsdcRequest (config : VsdcConfig) (endpoint method data token : JSVal) :
    Except JSError AxiosRequest :=
  let method := orDefault method (.str (js "POST"))
  let data := orDefault data .null
  let token := orDefault token .null
  match ebmApiUrl config with
  | .error err => .error err
  | .ok baseUrl =>
    match toStr baseUrl with
    | .error err => .error err
    | .ok base =>
      match toStr endpoint with
      | .error err => .error err
      | .ok path =>
        if truthy token then
          match toStr token with
          | .error err => .error err
          | .ok t =>
            .ok { method := method, url := base ++ path, data := data,
                  headers := [(js "Content-Type", js "application/json"),
                              (js "Authorization", js "Bearer " ++ t)],
                  timeout := 30000 }
        else
          .ok { method := method, url := base ++ path, data := data,
                headers := [(js "Content-Type", js "application/json")],
                timeout := 30000 }

/-- The function `callVsdcApi`. `http` is the HTTP client, an external
collaborator. The result is the value the returned promise resolves with and
the request handed to the client, if one was. The whole body is inside `try`,
and the `catch` clause returns. -/
def callVsdcApi (config : VsdcConfig) (endpoint method data token : JSVal)
    (http : AxiosRequest → Except AxiosError AxiosResponse) :
    ApiResult × Option AxiosRequest :=
  match vsdcRequest config endpoint method data token with
  | .error _ => (runtimeFailure, none)
  | .ok request =>
    match http request with
    | .ok response => (.succeeded response.data response.status, some request)
    | .error err => (axiosFailure err, some request)

/-! ## Credential loading (src/index.js, lines 1 and 15-38; src/firebaseAdmin.js, lines 3-35) -/

/-- The environment of the two start-up scripts: the two variables of the
process environment (`none` when unset), the value the `.env` file gives to
`FIREBASE_SERVICE_ACCOUNT` (`none` when there is no such file or no such line),
whether `JSON.parse` accepts a text, and whether `require` loads a path. -/
structure CredentialEnv where
  serviceAccount : Option JSString
  serviceAccountPath : Option JSString
  dotenvServiceAccount : Option JSString
  parses : JSString → Bool
  loads : JSString → Bool

/-- Where the service account comes from. -/
inductive CredentialSource where
  | environmentJson (text : JSString)
  | file (path : JSString)
  deriving DecidableEq

/-- The exception a start-up script rethrows. -/
inductive CredentialError where
  | parseFailed
  | loadFailed (path : JSString)
  deriving DecidableEq

/-- A variable of `process.env` is truthy: set, and not the empty string. -/
def envSet : Option JSString → Bool
  | none => false
  | some s => decide (s ≠ [])

/-- The value of `process.env.FIREBASE_SERVICE_ACCOUNT` after
`require('dotenv').config()` (src/index.js, line 1): a variable the process
already has, even empty, is kept; one it does not have is taken from the `.env`
file. -/
def dotenvConfig (env : CredentialEnv) : Option JSString :=
  match env.serviceAccount with
  | some value => some value
  | none => env.dotenvServiceAccount

/-- The `require` of a key file. -/
def requireFile (env : CredentialEnv) (path : JSString) :
    Except CredentialError CredentialSource :=
  if env.loads path then .ok (.file path) else .error (.loadFailed path)

/-- The parse of the text of `FIREBASE_SERVICE_ACCOUNT` (the empty text when
the variable is unset, a case the callers exclude). -/
def parseEnvironment (env : CredentialEnv) (value : Option JSString) :
    Except CredentialError CredentialSource :=
  if env.parses (value.getD []) then .ok (.environmentJson (value.getD []))
  else .error .parseFailed

/-- The credential loading of `src/index.js`, which reads the environment after
`dotenv` has completed it. -/
def indexServiceAccount (env : CredentialEnv) : Except CredentialError CredentialSource :=
  if envSet (dotenvConfig env) then parseEnvironment env (dotenvConfig env)
  else requireFile env (js "./serviceAccountKey.json")

/-- The credential loading of `src/firebaseAdmin.js`, which reads the process
environment as it is. -/
def firebaseAdminServiceAccount (env : CredentialEnv) :
    Except CredentialError CredentialSource :=
  if envSet env.serviceAccount then parseEnvironment env env.serviceAccount
  else if envSet env.serviceAccountPath then requireFile env (env.serviceAccountPath.getD [])
  else requireFile env (js "./serviceAccountKey.json")

/-! ## Fixtures -/

/-- A complete item-creation mapping, the fixture of the specification: `tin`
`"123"`, `bhfId` `"00"`, `dftPrc` the number 0 and every other required field a
non-empty string. -/
def sampleItemBody : List (JSString × JSVal) :=
  [(js "tin", .str (js "123")), (js "bhfId", .str (js "00")),
   (js "itemCd", .str (js "RW2NTU0000012")), (js "itemClsCd", .str (js "5020230602")),
   (js "itemTyCd", .str (js "2")), (js "itemNm", .str (js "Rice")),
   (js "orgnNatCd", .str (js "RW")), (js "pkgUnitCd", .str (js "NT")),
   (js "qtyUnitCd", .str (js "U")), (js "taxTyCd", .str (js "B")),
   (js "dftPrc", .num (.fin false 0 0)), (js "isrcAplcbYn", .str (js "N")),
   (js "useYn", .str (js "Y")), (js "regrNm", .str (js "admin")),
   (js "regrId", .str (js "admin")), (js "modrNm", .str (js "admin")),
   (js "modrId", .str (js "admin"))]

/-- The configuration with no environment variable set: the sandbox and the
production URL written in the source, `currentEnv` `"test"`. -/
def defaultConfig : VsdcConfig :=
  { testUrl := js "https://sedsandbox.rra.gov.rw",
    productionUrl := js "https://api-ebm.rra.gov.rw",
    currentEnv := js "test",
    defaultBhfId := js "00" }

/-! ## The time stamp `resultDt` (src/index.js, lines 311 and 746) -/

/-- The operation `ToZeroPaddedDecimalString(n, minLength)` of ECMA-262: the
decimal rendering of `n`, left-padded with `0` to `minLength`. -/
def toZeroPadded (n minLength : Nat) : JSString :=
  padStart (numberToString (JSNumber.ofNat n)) minLength (js "0")

/-- An instant, given by its UTC calendar fields (the month counted from 1). -/
structure UtcTime where
  year : Int
  month : Nat
  day : Nat
  hour : Nat
  minute : Nat
  second : Nat
  millisecond : Nat

/-- The fields are those of a calendar date and a time of day, and the year has
at most four digits. -/
def UtcTime.inRange (t : UtcTime) : Bool :=
  decide (0 ≤ t.year) && decide (t.year ≤ 9999) &&
  decide (1 ≤ t.month) && decide (t.month ≤ 12) &&
  decide (1 ≤ t.day) && decide (t.day ≤ 31) &&
  decide (t.hour ≤ 23) && decide (t.minute ≤ 59) && decide (t.second ≤ 59) &&
  decide (t.millisecond ≤ 999)

/-- The method `Date.prototype.toISOString`: `YYYY-MM-DDTHH:mm:ss.sssZ`, the
year written with four digits from 0 to 9999 and with a sign and six digits
otherwise. -/
def toISOString (t : UtcTime) : JSString :=
  let year : JSString :=
    if 0 ≤ t.year ∧ t.year ≤ 9999 then toZeroPadded t.year.toNat 4
    else if 0 ≤ t.year then js "+" ++ toZeroPadded t.year.toNat 6
    else js "-" ++ toZeroPadded t.year.natAbs 6
  year ++ js "-" ++ toZeroPadded t.month 2 ++ js "-" ++ toZeroPadded t.day 2 ++ js "T"
    ++ toZeroPadded t.hour 2 ++ js ":" ++ toZeroPadded t.minute 2 ++ js ":"
    ++ toZeroPadded t.second 2 ++ js "." ++ toZeroPadded t.millisecond 3 ++ js "Z"

/-! ## Sample evaluations of the value model -/

/-- The rendering of numbers on a few inputs: integers, fractions, and the two
thresholds of scientific notation. -/
theorem numberToString_samples :
    numberToString (JSNumber.ofNat 0) = js "0" ∧
    numberToString (JSNumber.ofNat 1200) = js "1200" ∧
    numberToString (.fin true 125 (-1)) = js "-12.5" ∧
    numberToString (.fin false 12 (-7)) = js "0.0000012" ∧
    numberToString (.fin false 1 (-7)) = js "1e-7" ∧
    numberToString (.fin false 1 21) = js "1e+21" ∧
    numberToString (.fin false 123 19) = js "1.23e+21" := by
  decide

/-- The rendering of an array and of plain objects. -/
theorem toStr_samples :
    toStr (.arr [.num (JSNumber.ofNat 1), .null, .arr [.str (js "a"), .bool true]])
      = .ok (js "1,,a,true") ∧
    toStr (.obj [(js "a", .null)]) = .ok (js "[object Object]") ∧
    toStr (.obj [(js "toString", .str (js "x"))]) = .error .typeError := by
  decide

/-- The generated branch on two draws. -/
theorem generateItemCode_samples :
    generateItemCode .undefined .undefined .undefined .undefined .undefined 12
      = .ok (js "RW2NTU0000012") ∧
    generateItemCode .undefined .undefined .undefined .undefined .null 1234567
      = .ok (js "RW2NTU1234567") := by
  decide

/-! ## Lemmas on decimal rendering -/

theorem digitsLE_eq_digits (fuel n : Nat) (h : n ≤ fuel) : digitsLE fuel n = Nat.digits 10 n := by
  induction fuel generalizing n with
  | zero =>
    have : n = 0 := by omega
    subst this; simp [digitsLE]
  | succ fuel ih =>
    unfold digitsLE
    by_cases hn : n = 0
    · subst hn; simp
    · rw [if_neg hn, ih (n / 10) (by omega)]
      exact (Nat.digits_def' (by norm_num) (Nat.pos_of_ne_zero hn)).symm

theorem decimal_eq (n : Nat) : decimal n = ((Nat.digits 10 n).reverse).map digitUnit := by
  unfold decimal; rw [digitsLE_eq_digits n n le_rfl]

theorem decimal_length (n : Nat) : (decimal n).length = (Nat.digits 10 n).length := by
  simp [decimal_eq]

theorem stripZeros_spec (fuel s : Nat) (e : Int) (h : s ≤ fuel) (hs : s ≠ 0) :
    ∃ j : Nat, (stripZeros fuel s e).2 = e + j ∧ (stripZeros fuel s e).1 * 10 ^ j = s ∧
      (stripZeros fuel s e).1 ≠ 0 := by
  induction fuel generalizing s e with
  | zero => omega
  | succ fuel ih =>
    unfold stripZeros
    by_cases hc : s ≠ 0 ∧ s % 10 = 0
    · rw [if_pos hc]
      obtain ⟨j, h1, h2, h3⟩ := ih (s / 10) (e + 1) (by omega) (by omega)
      refine ⟨j + 1, ?_, ?_, h3⟩
      · rw [h1]; push_cast; ring
      · rw [pow_succ, ← mul_assoc, h2]; omega
    · rw [if_neg hc]
      exact ⟨0, by simp, by simp, hs⟩


theorem digits_length_le_of_lt_pow (n w : Nat) (h : n < 10 ^ w) : (Nat.digits 10 n).length ≤ w := by
  by_cases hn : n = 0
  · subst hn; simp
  · by_contra hlen
    have h1 := Nat.base_pow_length_digits_le 10 n (by norm_num) hn
    have h2 : 10 ^ (w + 1) ≤ 10 ^ (Nat.digits 10 n).length :=
      Nat.pow_le_pow_right (by norm_num) (by omega)
    rw [pow_succ] at h2
    omega

theorem numberToString_ofNat (n : Nat) (hpos : n ≠ 0) (h : n < 10 ^ 21) :
    numberToString (JSNumber.ofNat n) = decimal n := by
  obtain ⟨j, h1, h2, h3⟩ := stripZeros_spec n n 0 le_rfl hpos
  have hdig : Nat.digits 10 n = List.replicate j 0 ++ Nat.digits 10 (stripZeros n n 0).1 := by
    rw [← Nat.digits_base_pow_mul (by norm_num) (Nat.pos_of_ne_zero h3), mul_comm, h2]
  have hlen := digits_length_le_of_lt_pow n 21 h
  rw [hdig, List.length_append, List.length_replicate] at hlen
  have hdec : decimal n = decimal (stripZeros n n 0).1 ++ List.replicate j (digitUnit 0) := by
    rw [decimal_eq, decimal_eq, hdig]
    simp
  simp only [numberToString, JSNumber.ofNat, if_neg hpos]
  rw [h1, hdec]
  have hk := decimal_length (stripZeros n n 0).1
  have hc1 : (-5 : Int) ≤ 0 + (j : Int) + ((decimal (stripZeros n n 0).1).length : Int) ∧
      0 + (j : Int) + ((decimal (stripZeros n n 0).1).length : Int) ≤ 21 := by
    constructor <;> omega
  have hc2 : ((decimal (stripZeros n n 0).1).length : Int) ≤
      0 + (j : Int) + ((decimal (stripZeros n n 0).1).length : Int) := by omega
  rw [if_pos hc1, if_pos hc2]
  have hj : (0 + (j : Int) + ((decimal (stripZeros n n 0).1).length : Int) -
      ((decimal (stripZeros n n 0).1).length : Int)).toNat = j := by omega
  rw [hj]
  simp

theorem numberToString_zero : numberToString (JSNumber.ofNat 0) = js "0" := by
  decide

theorem padStart_zero (s : JSString) (w : Nat) :
    padStart s w (js "0") = List.replicate (w - s.length) (digitUnit 0) ++ s := by
  unfold padStart
  by_cases h : w ≤ s.length
  · rw [if_pos h, Nat.sub_eq_zero_of_le h]; rfl
  · rw [if_neg h]
    have hne : js "0" ≠ [] := by decide
    rw [if_neg hne]
    have hz : js "0" = [digitUnit 0] := by decide
    have hfl : ∀ k : Nat, (List.replicate k [digitUnit 0]).flatten = List.replicate k (digitUnit 0) := by
      intro k
      induction k with
      | zero => rfl
      | succ k ih => simp [List.replicate_succ, ih]
    simp only [hz, hfl]
    rw [List.take_of_length_le (by simp)]

theorem isDigit_digitUnit (d : Nat) (h : d < 10) : isDigit (digitUnit d) = true := by
  interval_cases d <;> decide

theorem digitUnit_val (d : Nat) (h : d < 10) : (digitUnit d).val - 48 = d := by
  interval_cases d <;> decide

theorem decimalValue_append (a b : JSString) :
    decimalValue (a ++ b) = b.foldl (fun acc c => acc * 10 + (c.val - 48)) (decimalValue a) := by
  simp [decimalValue, List.foldl_append]

theorem decimalValue_zeros (k : Nat) : decimalValue (List.replicate k (digitUnit 0)) = 0 := by
  induction k with
  | zero => rfl
  | succ k ih =>
    rw [List.replicate_succ', decimalValue_append, ih]
    decide

theorem decimalValue_digits (L : List Nat) (h : ∀ d ∈ L, d < 10) :
    decimalValue ((L.reverse).map digitUnit) = Nat.ofDigits 10 L := by
  induction L with
  | nil => rfl
  | cons d L ih =>
    have hd : d < 10 := h d (List.mem_cons_self _ _)
    have hL : ∀ x ∈ L, x < 10 := fun x hx => h x (List.mem_cons_of_mem _ hx)
    rw [List.reverse_cons, List.map_append, decimalValue_append, ih hL, Nat.ofDigits_cons]
    simp only [List.map_cons, List.map_nil, List.foldl_cons, List.foldl_nil]
    rw [digitUnit_val d hd]
    ring

theorem decimalValue_zeros_append (k : Nat) (s : JSString) :
    decimalValue (List.replicate k (digitUnit 0) ++ s) = decimalValue s := by
  rw [decimalValue_append, decimalValue_zeros]; rfl

/-- The generated sequence: the draw rendered in decimal and padded to width 7
has exactly 7 code units, all of them digits, and reads as the draw. -/
theorem generated_sequence (n : Nat) (h : n < 10 ^ 7) :
    (padStart (numberToString (JSNumber.ofNat n)) 7 (js "0")).length = 7 ∧
    (∀ c ∈ padStart (numberToString (JSNumber.ofNat n)) 7 (js "0"), isDigit c = true) ∧
    decimalValue (padStart (numberToString (JSNumber.ofNat n)) 7 (js "0")) = n := by
  by_cases hn : n = 0
  · subst hn
    have h0 : padStart (numberToString (JSNumber.ofNat 0)) 7 (js "0")
        = List.replicate 7 (digitUnit 0) := by decide
    rw [h0]
    refine ⟨rfl, ?_, decimalValue_zeros 7⟩
    intro c hc
    rw [List.eq_of_mem_replicate hc]; decide
  · have hlt : n < 10 ^ 21 := lt_of_lt_of_le h (by norm_num)
    rw [numberToString_ofNat n hn hlt, padStart_zero]
    have hlen : (decimal n).length ≤ 7 := by
      rw [decimal_length]; exact digits_length_le_of_lt_pow n 7 h
    have hdl : ∀ d ∈ Nat.digits 10 n, d < 10 := fun d hd => Nat.digits_lt_base (by norm_num) hd
    refine ⟨?_, ?_, ?_⟩
    · rw [List.length_append, List.length_replicate]; omega
    · intro c hc
      rw [List.mem_append] at hc
      rcases hc with hc | hc
      · rw [List.eq_of_mem_replicate hc]; decide
      · rw [decimal_eq, List.mem_map] at hc
        obtain ⟨d, hd, rfl⟩ := hc
        exact isDigit_digitUnit d (hdl d (List.mem_reverse.mp hd))
    · rw [decimalValue_zeros_append, decimal_eq, decimalValue_digits _ hdl, Nat.ofDigits_digits]

/-! ## Lemmas on `generateItemCode` -/

theorem generateItemCode_supplied (o t p q s : JSString) (hs : s ≠ []) (draw : Nat) :
    generateItemCode (.str o) (.str t) (.str p) (.str q) (.str s) draw
      = .ok (o ++ t ++ p ++ q ++ s) := by
  simp [generateItemCode, orDefault, truthy, toStr, hs]

theorem generateItemCode_generated (o t p q : JSString) (draw : Nat) :
    generateItemCode (.str o) (.str t) (.str p) (.str q) .undefined draw
      = .ok (o ++ t ++ p ++ q ++ padStart (numberToString (JSNumber.ofNat draw)) 7 (js "0")) := by
  simp [generateItemCode, orDefault, truthy, toStr]

theorem generateItemCode_empty (o t p q : JSString) (draw : Nat) :
    generateItemCode (.str o) (.str t) (.str p) (.str q) (.str []) draw
      = .ok (o ++ t ++ p ++ q ++ padStart (numberToString (JSNumber.ofNat draw)) 7 (js "0")) := by
  simp [generateItemCode, orDefault, truthy, toStr]


theorem generateItemCode_argOf_supplied (o t p q : Option JSString) (s : JSString)
    (hs : s ≠ []) (draw : Nat) :
    generateItemCode (argOf o) (argOf t) (argOf p) (argOf q) (.str s) draw
      = .ok (o.getD (js "RW") ++ t.getD (js "2") ++ p.getD (js "NT") ++ q.getD (js "U") ++ s) := by
  cases o <;> cases t <;> cases p <;> cases q <;>
    simp [generateItemCode, argOf, orDefault, truthy, toStr, hs]

theorem generateItemCode_argOf_generated (o t p q : Option JSString) (draw : Nat) :
    generateItemCode (argOf o) (argOf t) (argOf p) (argOf q) .undefined draw
      = .ok (o.getD (js "RW") ++ t.getD (js "2") ++ p.getD (js "NT") ++ q.getD (js "U")
          ++ padStart (numberToString (JSNumber.ofNat draw)) 7 (js "0")) := by
  cases o <;> cases t <;> cases p <;> cases q <;>
    simp [generateItemCode, argOf, orDefault, truthy, toStr]

theorem orDefault_of_truthy (v d : JSVal) (h : truthy v = true) : orDefault v d = v := by
  cases v <;> simp_all [orDefault, truthy]

theorem missing_iff_shape (v : JSVal) :
    (truthy v = false ∧ strictEqualsZero v = false) ↔
      (v = .undefined ∨ v = .null ∨ v = .bool false ∨ v = .str [] ∨ v = .num .nan) := by
  cases v with
  | undefined => simp [truthy, strictEqualsZero]
  | null => simp [truthy, strictEqualsZero]
  | bool b => cases b <;> simp [truthy, strictEqualsZero]
  | num x => cases x <;> simp [truthy, strictEqualsZero]
  | str s => simp [truthy, strictEqualsZero]
  | arr items => simp [truthy, strictEqualsZero]
  | obj members => simp [truthy, strictEqualsZero]

theorem mem_missingFields (data : List (JSString × JSVal)) (f : JSString)
    (hf : f ∈ requiredFieldNames) :
    f ∈ missingFields (requiredFields data) ↔
      (truthy (getProp data f) = false ∧ strictEqualsZero (getProp data f) = false) := by
  unfold missingFields requiredFields
  simp only [List.mem_map, List.mem_filter]
  constructor
  · rintro ⟨kv, ⟨⟨k, _, rfl⟩, hp⟩, rfl⟩
    simpa using hp
  · intro h
    exact ⟨(f, getProp data f), ⟨⟨f, hf, rfl⟩, by simpa using h⟩, rfl⟩

theorem getProp_absent (members : List (JSString × JSVal)) (key : JSString)
    (h : hasOwn members key = false) : getProp members key = .undefined := by
  unfold getProp
  unfold hasOwn at h
  generalize JSVal.undefined = acc
  induction members generalizing acc with
  | nil => rfl
  | cons kv rest ih =>
    simp only [List.any_cons, Bool.or_eq_false_iff, decide_eq_false_iff_not] at h
    simp only [List.foldl_cons, if_neg h.1]
    exact ih h.2 acc

/-! ## The claims -/

/-- C1: `generateItemCode("RW", "2", "NT", "U", "0000012")` returns exactly the
string `"RW2NTU0000012"`, whatever the random source holds. -/
theorem generateItemCode_fixture (draw : Nat) :
    generateItemCode (.str (js "RW")) (.str (js "2")) (.str (js "NT")) (.str (js "U"))
      (.str (js "0000012")) draw = .ok (js "RW2NTU0000012") := by
  rfl

/-- C2, as stated, fails: with the widths 2, 1, 2, 2 and 7 of the data model
the code `"RW2NTKG0000012"` is returned, which has 14 characters, not 13. -/
theorem generateItemCode_length_counterexample :
    (js "RW").length = 2 ∧ (js "2").length = 1 ∧ (js "NT").length = 2 ∧
    (js "KG").length = 2 ∧ (js "0000012").length = 7 ∧
    generateItemCode (.str (js "RW")) (.str (js "2")) (.str (js "NT")) (.str (js "KG"))
      (.str (js "0000012")) 0 = .ok (js "RW2NTKG0000012") ∧
    (js "RW2NTKG0000012").length ≠ 13 := by
  decide

/-- C2 (amended): for an origin code of width 2, an item type code of width 1,
a packaging unit code of width 2 and a sequence of width 7, the returned string
has length exactly 14 when the quantity unit code has width 2, and length
exactly 13 when the quantity unit code has width 1 (as the default `"U"`). -/
theorem generateItemCode_length (o t p q s : JSString) (draw : Nat)
    (ho : o.length = 2) (ht : t.length = 1) (hp : p.length = 2) (hs : s.length = 7) :
    (q.length = 2 → ∃ code, generateItemCode (.str o) (.str t) (.str p) (.str q) (.str s) draw
        = .ok code ∧ code.length = 14) ∧
    (q.length = 1 → ∃ code, generateItemCode (.str o) (.str t) (.str p) (.str q) (.str s) draw
        = .ok code ∧ code.length = 13) := by
  have hne : s ≠ [] := by
    intro h; rw [h] at hs; simp at hs
  rw [generateItemCode_supplied o t p q s hne draw]
  constructor
  · intro hq
    exact ⟨_, rfl, by simp only [List.length_append]; omega⟩
  · intro hq
    exact ⟨_, rfl, by simp only [List.length_append]; omega⟩

theorem generateItemCode_length_witness :
    ((js "RW").length = 2 ∧ (js "2").length = 1 ∧ (js "NT").length = 2 ∧
      (js "0000012").length = 7) ∧
    ((js "KG").length = 2 → ∃ code, generateItemCode (.str (js "RW")) (.str (js "2"))
        (.str (js "NT")) (.str (js "KG")) (.str (js "0000012")) 0 = .ok code ∧
        code.length = 14) ∧
    ((js "KG").length = 1 → ∃ code, generateItemCode (.str (js "RW")) (.str (js "2"))
        (.str (js "NT")) (.str (js "KG")) (.str (js "0000012")) 0 = .ok code ∧
        code.length = 13) :=
  ⟨by decide, generateItemCode_length (js "RW") (js "2") (js "NT") (js "KG") (js "0000012") 0
    (by decide) (by decide) (by decide) (by decide)⟩

/-- C3: called without a sequence, for every draw `n = floor(r * 10^7)` with
`0 ≤ n < 10^7` the result is the four component codes followed by exactly 7
characters, all of them decimal digits, which read as the decimal number `n`. -/
theorem generateItemCode_generated_sequence (o t p q : JSString) (n : Nat) (hn : n < 10 ^ 7) :
    ∃ seq : JSString,
      generateItemCode (.str o) (.str t) (.str p) (.str q) .undefined n
        = .ok (o ++ t ++ p ++ q ++ seq) ∧
      seq.length = 7 ∧ (∀ c ∈ seq, isDigit c = true) ∧ decimalValue seq = n := by
  exact ⟨_, generateItemCode_generated o t p q n, generated_sequence n hn⟩

theorem generateItemCode_generated_sequence_witness :
    12 < 10 ^ 7 ∧ ∃ seq : JSString,
      generateItemCode (.str (js "RW")) (.str (js "2")) (.str (js "NT")) (.str (js "U"))
        .undefined 12 = .ok (js "RW" ++ js "2" ++ js "NT" ++ js "U" ++ seq) ∧
      seq.length = 7 ∧ (∀ c ∈ seq, isDigit c = true) ∧ decimalValue seq = 12 :=
  ⟨by norm_num, generateItemCode_generated_sequence (js "RW") (js "2") (js "NT") (js "U") 12
    (by norm_num)⟩

/-- C4, as stated, fails: a supplied empty sequence is not used verbatim, it is
replaced by a generated one. -/
theorem generateItemCode_verbatim_counterexample :
    generateItemCode (.str (js "RW")) (.str (js "2")) (.str (js "NT")) (.str (js "U"))
      (.str (js "")) 12 = .ok (js "RW2NTU0000012") ∧
    generateItemCode (.str (js "RW")) (.str (js "2")) (.str (js "NT")) (.str (js "U"))
      (.str (js "")) 12 ≠ .ok (js "RW" ++ js "2" ++ js "NT" ++ js "U" ++ js "") := by
  decide

/-- C4 (amended): a supplied non-empty sequence is used verbatim: the result is
exactly `o ++ t ++ p ++ q ++ s`, with `s` neither padded nor replaced. -/
theorem generateItemCode_verbatim (o t p q s : JSString) (hs : s ≠ []) (draw : Nat) :
    generateItemCode (.str o) (.str t) (.str p) (.str q) (.str s) draw
      = .ok (o ++ t ++ p ++ q ++ s) :=
  generateItemCode_supplied o t p q s hs draw

theorem generateItemCode_verbatim_witness :
    js "12" ≠ [] ∧
    generateItemCode (.str (js "RW")) (.str (js "2")) (.str (js "NT")) (.str (js "U"))
      (.str (js "12")) 0 = .ok (js "RW" ++ js "2" ++ js "NT" ++ js "U" ++ js "12") :=
  ⟨by decide, generateItemCode_verbatim (js "RW") (js "2") (js "NT") (js "U") (js "12")
    (by decide) 0⟩

/-- C5, as stated, fails for the explicit sequence `""`: with every component
omitted the result is `"RW2NTU"` followed by a generated sequence, not
`"RW2NTU" ++ ""`. -/
theorem generateItemCode_defaults_counterexample :
    generateItemCode .undefined .undefined .undefined .undefined (.str (js "")) 7
      = .ok (js "RW2NTU0000007") ∧
    generateItemCode .undefined .undefined .undefined .undefined (.str (js "")) 7
      ≠ .ok (js "RW2NTU" ++ js "") := by
  decide

/-- C5 (amended): for every non-empty explicit sequence `s`, each omitted
component is replaced by its own default (`"RW"`, `"2"`, `"NT"`, `"U"`) and
each supplied component is kept; with all four omitted the result is
`"RW2NTU" ++ s`. -/
theorem generateItemCode_defaults (o t p q : Option JSString) (s : JSString) (hs : s ≠ [])
    (draw : Nat) :
    generateItemCode (argOf o) (argOf t) (argOf p) (argOf q) (.str s) draw
      = .ok (o.getD (js "RW") ++ t.getD (js "2") ++ p.getD (js "NT") ++ q.getD (js "U") ++ s) ∧
    generateItemCode .undefined .undefined .undefined .undefined (.str s) draw
      = .ok (js "RW2NTU" ++ s) :=
  ⟨generateItemCode_argOf_supplied o t p q s hs draw,
   generateItemCode_argOf_supplied none none none none s hs draw⟩

theorem generateItemCode_defaults_witness :
    js "0000042" ≠ [] ∧
    (generateItemCode (argOf none) (argOf (some (js "1"))) (argOf none) (argOf (some (js "KG")))
        (.str (js "0000042")) 0
      = .ok ((none : Option JSString).getD (js "RW") ++ (some (js "1")).getD (js "2")
          ++ (none : Option JSString).getD (js "NT") ++ (some (js "KG")).getD (js "U")
          ++ js "0000042") ∧
    generateItemCode .undefined .undefined .undefined .undefined (.str (js "0000042")) 0
      = .ok (js "RW2NTU" ++ js "0000042")) :=
  ⟨by decide, generateItemCode_defaults none (some (js "1")) none (some (js "KG"))
    (js "0000042") (by decide) 0⟩

/-- C6, as stated, fails for a supplied sequence: `"12"` is kept as it is, so
the sequence field of the returned code has 2 characters, not 7. -/
theorem generateItemCode_padding_counterexample :
    generateItemCode (.str (js "RW")) (.str (js "2")) (.str (js "NT")) (.str (js "U"))
      (.str (js "12")) 0 = .ok (js "RW2NTU" ++ js "12") ∧
    (js "12").length ≠ 7 := by
  decide

/-- C6 (amended): when the sequence is generated (no sequence supplied, draw
below `10^7`), the sequence field is the decimal rendering of the draw
left-padded with `'0'` to width 7 and has exactly 7 characters; a supplied
non-empty sequence is the sequence field as it is, at its own length. -/
theorem generateItemCode_padding (o t p q : JSString) (n : Nat) (hn : n < 10 ^ 7) :
    (∃ seq : JSString,
      generateItemCode (.str o) (.str t) (.str p) (.str q) .undefined n
        = .ok (o ++ t ++ p ++ q ++ seq) ∧
      seq = List.replicate (7 - (numberToString (JSNumber.ofNat n)).length) (digitUnit 0)
        ++ numberToString (JSNumber.ofNat n) ∧
      seq.length = 7) ∧
    (∀ s : JSString, s ≠ [] →
      generateItemCode (.str o) (.str t) (.str p) (.str q) (.str s) n
        = .ok (o ++ t ++ p ++ q ++ s)) := by
  refine ⟨⟨_, generateItemCode_generated o t p q n, padStart_zero _ 7, ?_⟩, ?_⟩
  · exact (generated_sequence n hn).1
  · intro s hs
    exact generateItemCode_supplied o t p q s hs n

theorem generateItemCode_padding_witness :
    12 < 10 ^ 7 ∧
    ((∃ seq : JSString,
      generateItemCode (.str (js "RW")) (.str (js "2")) (.str (js "NT")) (.str (js "U"))
        .undefined 12 = .ok (js "RW" ++ js "2" ++ js "NT" ++ js "U" ++ seq) ∧
      seq = List.replicate (7 - (numberToString (JSNumber.ofNat 12)).length) (digitUnit 0)
        ++ numberToString (JSNumber.ofNat 12) ∧
      seq.length = 7) ∧
    (∀ s : JSString, s ≠ [] →
      generateItemCode (.str (js "RW")) (.str (js "2")) (.str (js "NT")) (.str (js "U"))
        (.str s) 12 = .ok (js "RW" ++ js "2" ++ js "NT" ++ js "U" ++ s))) :=
  ⟨by norm_num, generateItemCode_padding (js "RW") (js "2") (js "NT") (js "U") 12
    (by norm_num)⟩

/-- C7, as stated, fails for the explicit sequence `""`: two calls with the
same arguments return different codes when the random source differs. -/
theorem generateItemCode_deterministic_counterexample :
    generateItemCode (.str (js "RW")) (.str (js "2")) (.str (js "NT")) (.str (js "U"))
      (.str (js "")) 0 ≠
    generateItemCode (.str (js "RW")) (.str (js "2")) (.str (js "NT")) (.str (js "U"))
      (.str (js "")) 1 := by
  decide

/-- C7 (amended): given a truthy explicit sequence (a non-empty string such as
`"0000042"`), the result does not depend on the random source: for all
component values, two calls with the same arguments return the same result
whatever the two draws are. -/
theorem generateItemCode_deterministic (o t p q sequence : JSVal)
    (hs : truthy sequence = true) (d₁ d₂ : Nat) :
    generateItemCode o t p q sequence d₁ = generateItemCode o t p q sequence d₂ := by
  unfold generateItemCode
  simp only [orDefault_of_truthy sequence .null hs, hs]
  rfl

theorem generateItemCode_deterministic_witness :
    truthy (.str (js "0000042")) = true ∧
    generateItemCode (.str (js "RW")) (.str (js "2")) (.str (js "NT")) (.str (js "U"))
      (.str (js "0000042")) 3 =
    generateItemCode (.str (js "RW")) (.str (js "2")) (.str (js "NT")) (.str (js "U"))
      (.str (js "0000042")) 9999999 :=
  ⟨by decide, generateItemCode_deterministic (.str (js "RW")) (.str (js "2")) (.str (js "NT"))
    (.str (js "U")) (.str (js "0000042")) (by decide) 3 9999999⟩

/-- C8: with no explicit sequence and the same component codes (each omitted or
a string), the map from the draw `n` in `[0, 10^7)` to the returned code is
injective: two calls return the same code exactly when their draws are equal,
so different draws give different codes. -/
theorem generateItemCode_draw_injective (o t p q : Option JSString) (n m : Nat)
    (hn : n < 10 ^ 7) (hm : m < 10 ^ 7) :
    generateItemCode (argOf o) (argOf t) (argOf p) (argOf q) .undefined n
      = generateItemCode (argOf o) (argOf t) (argOf p) (argOf q) .undefined m ↔ n = m := by
  constructor
  · intro h
    rw [generateItemCode_argOf_generated, generateItemCode_argOf_generated] at h
    have h' := List.append_cancel_left (Except.ok.inj h)
    rw [← (generated_sequence n hn).2.2, ← (generated_sequence m hm).2.2, h']
  · intro h
    rw [h]

theorem generateItemCode_draw_injective_witness :
    12 < 10 ^ 7 ∧ 13 < 10 ^ 7 ∧
    (generateItemCode (argOf none) (argOf (some (js "2"))) (argOf (some (js "NT"))) (argOf none)
        .undefined 12
      = generateItemCode (argOf none) (argOf (some (js "2"))) (argOf (some (js "NT")))
        (argOf none) .undefined 13 ↔ 12 = 13) :=
  ⟨by norm_num, by norm_num,
   generateItemCode_draw_injective none (some (js "2")) (some (js "NT")) none 12 13
    (by norm_num) (by norm_num)⟩

/-- C9: no field width is validated. For all string component codes of any
length and any sequence (omitted or a string of any length) the call returns a
string and does not fail; the result is the plain concatenation of the four
components and of the sequence used (the supplied one when it is not empty,
the generated one otherwise), and its length is the sum of their lengths. -/
theorem generateItemCode_no_validation (o t p q : JSString) (s : Option JSString)
    (draw : Nat) :
    ∃ code seqUsed : JSString,
      generateItemCode (.str o) (.str t) (.str p) (.str q) (argOf s) draw = .ok code ∧
      code = o ++ t ++ p ++ q ++ seqUsed ∧
      seqUsed = (match s with
        | some x => if x = [] then padStart (numberToString (JSNumber.ofNat draw)) 7 (js "0")
                    else x
        | none => padStart (numberToString (JSNumber.ofNat draw)) 7 (js "0")) ∧
      code.length = o.length + t.length + p.length + q.length + seqUsed.length := by
  cases s with
  | none =>
    exact ⟨_, _, generateItemCode_generated o t p q draw, rfl, rfl, by
      simp only [List.length_append]⟩
  | some x =>
    by_cases hx : x = []
    · subst hx
      exact ⟨_, _, generateItemCode_empty o t p q draw, rfl, by simp, by
        simp only [List.length_append]⟩
    · exact ⟨_, _, generateItemCode_supplied o t p q x hx draw, rfl, by simp [hx], by
        simp only [List.length_append]⟩

/-- C10: in the item-creation required-field check, a required field `f` is in
the missing-field list if and only if its value is falsy and is not the number
zero, that is, if and only if the value is `undefined` (also when the field is
absent), `null`, `false`, the empty string or `NaN`; the number 0 and every
truthy value (non-empty string, non-zero number, `true`, object, array) are
present. -/
theorem missingFields_iff (data : List (JSString × JSVal)) (f : JSString)
    (hf : f ∈ requiredFieldNames) :
    (f ∈ missingFields (requiredFields data) ↔
      (truthy (getProp data f) = false ∧ strictEqualsZero (getProp data f) = false)) ∧
    (f ∈ missingFields (requiredFields data) ↔
      (getProp data f = .undefined ∨ getProp data f = .null ∨ getProp data f = .bool false ∨
        getProp data f = .str [] ∨ getProp data f = .num .nan)) ∧
    (hasOwn data f = false → f ∈ missingFields (requiredFields data)) := by
  have h1 := mem_missingFields data f hf
  have h2 := missing_iff_shape (getProp data f)
  refine ⟨h1, h1.trans h2, ?_⟩
  intro habs
  exact (h1.trans h2).mpr (Or.inl (getProp_absent data f habs))

theorem missingFields_iff_witness :
    js "itemNm" ∈ requiredFieldNames ∧
    ((js "itemNm" ∈ missingFields (requiredFields
        [(js "tin", .str (js "123")), (js "itemNm", .str (js "")),
         (js "dftPrc", .num (JSNumber.ofNat 0))]) ↔
      (truthy (getProp [(js "tin", .str (js "123")), (js "itemNm", .str (js "")),
         (js "dftPrc", .num (JSNumber.ofNat 0))] (js "itemNm")) = false ∧
       strictEqualsZero (getProp [(js "tin", .str (js "123")), (js "itemNm", .str (js "")),
         (js "dftPrc", .num (JSNumber.ofNat 0))] (js "itemNm")) = false)) ∧
    (js "itemNm" ∈ missingFields (requiredFields
        [(js "tin", .str (js "123")), (js "itemNm", .str (js "")),
         (js "dftPrc", .num (JSNumber.ofNat 0))]) ↔
      (getProp [(js "tin", .str (js "123")), (js "itemNm", .str (js "")),
         (js "dftPrc", .num (JSNumber.ofNat 0))] (js "itemNm") = .undefined ∨
       getProp [(js "tin", .str (js "123")), (js "itemNm", .str (js "")),
         (js "dftPrc", .num (JSNumber.ofNat 0))] (js "itemNm") = .null ∨
       getProp [(js "tin", .str (js "123")), (js "itemNm", .str (js "")),
         (js "dftPrc", .num (JSNumber.ofNat 0))] (js "itemNm") = .bool false ∨
       getProp [(js "tin", .str (js "123")), (js "itemNm", .str (js "")),
         (js "dftPrc", .num (JSNumber.ofNat 0))] (js "itemNm") = .str [] ∨
       getProp [(js "tin", .str (js "123")), (js "itemNm", .str (js "")),
         (js "dftPrc", .num (JSNumber.ofNat 0))] (js "itemNm") = .num .nan)) ∧
    (hasOwn [(js "tin", .str (js "123")), (js "itemNm", .str (js "")),
         (js "dftPrc", .num (JSNumber.ofNat 0))] (js "itemNm") = false →
      js "itemNm" ∈ missingFields (requiredFields
        [(js "tin", .str (js "123")), (js "itemNm", .str (js "")),
         (js "dftPrc", .num (JSNumber.ofNat 0))]))) :=
  ⟨by decide, missingFields_iff _ (js "itemNm") (by decide)⟩

/-! ## Lemmas on the required-field check -/

theorem missingFields_eq_filter (data : List (JSString × JSVal)) :
    missingFields (requiredFields data) =
      requiredFieldNames.filter
        (fun key => !(truthy (getProp data key)) && !(strictEqualsZero (getProp data key))) := by
  unfold missingFields requiredFields
  rw [List.filter_map, List.map_map]
  simp [Function.comp_def]

theorem requiredFieldNames_nodup : requiredFieldNames.Nodup := by
  decide

theorem filter_eq_nil_of_all_false {α : Type} (p : α → Bool) (l : List α)
    (h : ∀ x ∈ l, p x = false) : l.filter p = [] := by
  rw [List.filter_eq_nil_iff]
  intro x hx
  simp [h x hx]

theorem filter_eq_singleton {α : Type} (p : α → Bool) (l : List α) (a : α)
    (hnd : l.Nodup) (ha : a ∈ l) (hpa : p a = true) (hp : ∀ x ∈ l, x ≠ a → p x = false) :
    l.filter p = [a] := by
  induction l with
  | nil => cases ha
  | cons b l ih =>
    rw [List.nodup_cons] at hnd
    by_cases hba : b = a
    · subst hba
      rw [List.filter_cons_of_pos hpa]
      congr 1
      apply filter_eq_nil_of_all_false
      intro x hx
      apply hp x (List.mem_cons_of_mem _ hx)
      intro hxb
      exact hnd.1 (hxb ▸ hx)
    · have hb : p b = false := hp b (List.mem_cons_self _ _) hba
      rw [List.filter_cons_of_neg (by simp [hb])]
      have ha' : a ∈ l := by
        rcases List.mem_cons.mp ha with h | h
        · exact absurd h.symm hba
        · exact h
      exact ih hnd.2 ha' (fun x hx hxa => hp x (List.mem_cons_of_mem _ hx) hxa)

theorem present_iff (v : JSVal) :
    (!(truthy v) && !(strictEqualsZero v)) = false ↔
      (truthy v = true ∨ strictEqualsZero v = true) := by
  cases truthy v <;> cases strictEqualsZero v <;> simp

theorem missingFields_eq_nil_iff (data : List (JSString × JSVal)) :
    missingFields (requiredFields data) = [] ↔
      ∀ f ∈ requiredFieldNames,
        (truthy (getProp data f) = true ∨ strictEqualsZero (getProp data f) = true) := by
  rw [missingFields_eq_filter, List.filter_eq_nil_iff]
  constructor
  · intro h f hf
    have := h f hf
    exact (present_iff _).mp (by simpa using this)
  · intro h f hf
    have := (present_iff _).mpr (h f hf)
    simp [this]

theorem getProp_append_singleton (data : List (JSString × JSVal)) (k f : JSString) (v : JSVal) :
    getProp (data ++ [(k, v)]) f = if k = f then v else getProp data f := by
  simp [getProp, List.foldl_append]

/-- C11: zero is valid. When `dftPrc` is the number 0 it is not in the
missing-field list, and the list is empty when every other required field is
non-empty (truthy); in general the list is empty exactly when each of the 17
required fields is present, that is, truthy or the number 0. -/
theorem missingFields_zero_is_valid (data : List (JSString × JSVal)) (neg : Bool) (e : Int)
    (h0 : getProp data (js "dftPrc") = .num (.fin neg 0 e)) :
    js "dftPrc" ∉ missingFields (requiredFields data) ∧
    ((∀ f ∈ requiredFieldNames, f ≠ js "dftPrc" → truthy (getProp data f) = true) →
      missingFields (requiredFields data) = []) ∧
    (missingFields (requiredFields data) = [] ↔
      ∀ f ∈ requiredFieldNames,
        (truthy (getProp data f) = true ∨ strictEqualsZero (getProp data f) = true)) ∧
    requiredFieldNames.length = 17 := by
  refine ⟨?_, ?_, missingFields_eq_nil_iff data, rfl⟩
  · intro hmem
    have h := (mem_missingFields data (js "dftPrc") (by decide)).mp hmem
    rw [h0] at h
    simp [strictEqualsZero] at h
  · intro hall
    rw [missingFields_eq_nil_iff]
    intro f hf
    by_cases hfd : f = js "dftPrc"
    · right
      rw [hfd, h0]
      simp [strictEqualsZero]
    · exact Or.inl (hall f hf hfd)

theorem missingFields_zero_is_valid_witness :
    getProp sampleItemBody (js "dftPrc") = .num (.fin false 0 0) ∧
    (js "dftPrc" ∉ missingFields (requiredFields sampleItemBody) ∧
    ((∀ f ∈ requiredFieldNames, f ≠ js "dftPrc" → truthy (getProp sampleItemBody f) = true) →
      missingFields (requiredFields sampleItemBody) = []) ∧
    (missingFields (requiredFields sampleItemBody) = [] ↔
      ∀ f ∈ requiredFieldNames,
        (truthy (getProp sampleItemBody f) = true ∨
          strictEqualsZero (getProp sampleItemBody f) = true)) ∧
    requiredFieldNames.length = 17) :=
  ⟨rfl, missingFields_zero_is_valid sampleItemBody false 0 rfl⟩

/-- C12: when exactly one required field `f` is missing and every other
required field is present, the missing-field list is `[f]`; in particular,
when `itemNm` is the empty string and the other required fields are present,
the list is exactly `["itemNm"]`. -/
theorem missingFields_single (data : List (JSString × JSVal)) :
    (∀ f ∈ requiredFieldNames,
      (truthy (getProp data f) = false ∧ strictEqualsZero (getProp data f) = false) →
      (∀ g ∈ requiredFieldNames, g ≠ f →
        (truthy (getProp data g) = true ∨ strictEqualsZero (getProp data g) = true)) →
      missingFields (requiredFields data) = [f]) ∧
    (getProp data (js "itemNm") = .str [] →
      (∀ g ∈ requiredFieldNames, g ≠ js "itemNm" →
        (truthy (getProp data g) = true ∨ strictEqualsZero (getProp data g) = true)) →
      missingFields (requiredFields data) = [js "itemNm"]) := by
  have general : ∀ f ∈ requiredFieldNames,
      (truthy (getProp data f) = false ∧ strictEqualsZero (getProp data f) = false) →
      (∀ g ∈ requiredFieldNames, g ≠ f →
        (truthy (getProp data g) = true ∨ strictEqualsZero (getProp data g) = true)) →
      missingFields (requiredFields data) = [f] := by
    intro f hf hmiss hothers
    rw [missingFields_eq_filter]
    apply filter_eq_singleton _ _ _ requiredFieldNames_nodup hf
    · simp [hmiss.1, hmiss.2]
    · intro g hg hgf
      exact (present_iff _).mpr (hothers g hg hgf)
  refine ⟨general, ?_⟩
  intro hnm hothers
  apply general (js "itemNm") (by decide) _ hothers
  rw [hnm]
  simp [truthy, strictEqualsZero]

theorem missingFields_single_witness :
    getProp (sampleItemBody ++ [(js "itemNm", JSVal.str (js ""))]) (js "itemNm") = .str [] ∧
    (∀ g ∈ requiredFieldNames, g ≠ js "itemNm" →
      (truthy (getProp (sampleItemBody ++ [(js "itemNm", JSVal.str (js ""))]) g) = true ∨
        strictEqualsZero (getProp (sampleItemBody ++ [(js "itemNm", JSVal.str (js ""))]) g)
          = true)) ∧
    missingFields (requiredFields (sampleItemBody ++ [(js "itemNm", JSVal.str (js ""))]))
      = [js "itemNm"] :=
  ⟨rfl, by decide,
   (missingFields_single (sampleItemBody ++ [(js "itemNm", JSVal.str (js ""))])).2 rfl (by decide)⟩

/-- C13: for every request mapping the missing-field list is a sublist of the
declared required-field list, so the missing names appear in declaration
order, and it has no duplicates. -/
theorem missingFields_sublist (data : List (JSString × JSVal)) :
    List.Sublist (missingFields (requiredFields data))
      [js "tin", js "bhfId", js "itemCd", js "itemClsCd", js "itemTyCd", js "itemNm",
       js "orgnNatCd", js "pkgUnitCd", js "qtyUnitCd", js "taxTyCd", js "dftPrc",
       js "isrcAplcbYn", js "useYn", js "regrNm", js "regrId", js "modrNm", js "modrId"] ∧
    (missingFields (requiredFields data)).Nodup := by
  have hsub : List.Sublist (missingFields (requiredFields data)) requiredFieldNames := by
    rw [missingFields_eq_filter]
    exact List.filter_sublist _
  exact ⟨hsub, hsub.nodup requiredFieldNames_nodup⟩

/-- C14: the check inspects the 17 required fields only. Two request mappings
that agree on the 17 required fields have the same missing-field list,
whatever their other members hold; every name in the list is a required field,
and none of the other names the handler reads is ever in it. -/
theorem missingFields_depends_only (d₁ d₂ : List (JSString × JSVal))
    (h : ∀ f ∈ requiredFieldNames, getProp d₁ f = getProp d₂ f) :
    missingFields (requiredFields d₁) = missingFields (requiredFields d₂) ∧
    (∀ f ∈ missingFields (requiredFields d₁), f ∈ requiredFieldNames) ∧
    (∀ g ∈ [js "adminId", js "districtId", js "schoolId", js "itemStdNm", js "btchNo",
        js "bcd", js "grpPrcL1", js "grpPrcL2", js "grpPrcL3", js "grpPrcL4", js "grpPrcL5",
        js "addInfo", js "sftyQty", js "quantity"],
      g ∉ missingFields (requiredFields d₁)) := by
  have hmem : ∀ f ∈ missingFields (requiredFields d₁), f ∈ requiredFieldNames := by
    intro f hf
    rw [missingFields_eq_filter] at hf
    exact (List.mem_filter.mp hf).1
  refine ⟨?_, hmem, ?_⟩
  · rw [missingFields_eq_filter, missingFields_eq_filter]
    apply List.filter_congr
    intro f hf
    rw [h f hf]
  · have hnot : ∀ g ∈ [js "adminId", js "districtId", js "schoolId", js "itemStdNm",
        js "btchNo", js "bcd", js "grpPrcL1", js "grpPrcL2", js "grpPrcL3", js "grpPrcL4",
        js "grpPrcL5", js "addInfo", js "sftyQty", js "quantity"],
        g ∉ requiredFieldNames := by
      decide
    intro g hg hgm
    exact hnot g hg (hmem g hgm)

theorem missingFields_depends_only_witness :
    (∀ f ∈ requiredFieldNames,
      getProp (sampleItemBody ++ [(js "itemNm", JSVal.str (js ""))]) f =
        getProp ((sampleItemBody ++ [(js "itemNm", JSVal.str (js ""))])
          ++ [(js "quantity", JSVal.num (.fin false 5 0))]) f) ∧
    (missingFields (requiredFields (sampleItemBody ++ [(js "itemNm", JSVal.str (js ""))])) =
      missingFields (requiredFields ((sampleItemBody ++ [(js "itemNm", JSVal.str (js ""))])
        ++ [(js "quantity", JSVal.num (.fin false 5 0))])) ∧
    (∀ f ∈ missingFields (requiredFields (sampleItemBody ++ [(js "itemNm", JSVal.str (js ""))])),
      f ∈ requiredFieldNames) ∧
    (∀ g ∈ [js "adminId", js "districtId", js "schoolId", js "itemStdNm", js "btchNo",
        js "bcd", js "grpPrcL1", js "grpPrcL2", js "grpPrcL3", js "grpPrcL4", js "grpPrcL5",
        js "addInfo", js "sftyQty", js "quantity"],
      g ∉ missingFields (requiredFields (sampleItemBody ++ [(js "itemNm", JSVal.str (js ""))])))) :=
  have h : ∀ f ∈ requiredFieldNames,
      getProp (sampleItemBody ++ [(js "itemNm", JSVal.str (js ""))]) f =
        getProp ((sampleItemBody ++ [(js "itemNm", JSVal.str (js ""))])
          ++ [(js "quantity", JSVal.num (.fin false 5 0))]) f := by
    intro f hf
    rw [getProp_append_singleton _ (js "quantity") f]
    have hne : js "quantity" ≠ f := by
      intro heq
      rw [← heq] at hf
      revert hf
      decide
    rw [if_neg hne]
  ⟨h, missingFields_depends_only _ _ h⟩

/-! ## Lemmas on `POST /api/items` -/

theorem postItems_of_missing (data : List (JSString × JSVal)) (body : JSVal) (draw : Nat)
    (iso : JSString) (store : Store) (hd : destructure body = .ok data)
    (hm : missingFields (requiredFields data) ≠ []) :
    postItems body draw iso store
      = (missingFieldsResponse (missingFields (requiredFields data)), []) := by
  have hlen : (missingFields (requiredFields data)).length > 0 :=
    List.length_pos.mpr hm
  simp only [postItems, hd, hlen, if_true]

theorem postItems_status_of_complete (data : List (JSString × JSVal)) (body : JSVal)
    (draw : Nat) (iso : JSString) (store : Store) (hd : destructure body = .ok data)
    (hm : missingFields (requiredFields data) = []) :
    (postItems body draw iso store).1.status = 200 ∨
      (postItems body draw iso store).1.status = 500 := by
  simp only [postItems, hd, hm, List.length_nil, gt_iff_lt, lt_self_iff_false, if_false]
  split
  · right; rfl
  · split
    · right; rfl
    · split
      · right; rfl
      · split
        · right; rfl
        · split
          · right; rfl
          · split
            · right; rfl
            · left; rfl

/-- C15: in `POST /api/items` missing required fields are answered, not raised.
For every request whose body destructures to a mapping `data`, the response
has status 400 exactly when the missing-field list of `data` is not empty; it
then carries `resultCd` `"910"` and the error `"Missing required fields: "`
followed by the missing names joined by `", "`, and nothing is written to the
document store. A body that cannot be destructured has no missing-field list:
the response is the 500 one and nothing is written either. -/
theorem postItems_missing_fields (body : JSVal) (draw : Nat) (iso : JSString)
    (store : Store) :
    (∀ data, destructure body = .ok data →
      ((postItems body draw iso store).1.status = 400 ↔
        missingFields (requiredFields data) ≠ []) ∧
      (missingFields (requiredFields data) ≠ [] →
        (postItems body draw iso store).1.status = 400 ∧
        (postItems body draw iso store).1.resultCd = js "910" ∧
        (postItems body draw iso store).1.error = some (.text
          (js "Missing required fields: " ++
            joinStrings (js ", ") (missingFields (requiredFields data)))) ∧
        (postItems body draw iso store).2 = [])) ∧
    (destructure body = .error .typeError →
      postItems body draw iso store = (serverError, [])) := by
  constructor
  · intro data hd
    constructor
    · constructor
      · intro h400
        intro hm
        rcases postItems_status_of_complete data body draw iso store hd hm with h | h
        · rw [h] at h400; exact absurd h400 (by decide)
        · rw [h] at h400; exact absurd h400 (by decide)
      · intro hm
        rw [postItems_of_missing data body draw iso store hd hm]
        rfl
    · intro hm
      rw [postItems_of_missing data body draw iso store hd hm]
      exact ⟨rfl, rfl, rfl, rfl⟩
  · intro hd
    simp only [postItems, hd]

theorem postItems_missing_fields_witness :
    destructure (.obj (sampleItemBody ++ [(js "itemNm", JSVal.str (js ""))]))
      = .ok (sampleItemBody ++ [(js "itemNm", JSVal.str (js ""))]) ∧
    (postItems (.obj (sampleItemBody ++ [(js "itemNm", JSVal.str (js ""))])) 12
        (js "2026-01-01T00:00:00.000Z")
        { refOk := fun _ => true, setOk := fun _ => true }).1.status = 400 ∧
    (postItems (.obj (sampleItemBody ++ [(js "itemNm", JSVal.str (js ""))])) 12
        (js "2026-01-01T00:00:00.000Z")
        { refOk := fun _ => true, setOk := fun _ => true }).1.resultCd = js "910" ∧
    (postItems (.obj (sampleItemBody ++ [(js "itemNm", JSVal.str (js ""))])) 12
        (js "2026-01-01T00:00:00.000Z")
        { refOk := fun _ => true, setOk := fun _ => true }).1.error = some (.text
      (js "Missing required fields: " ++
        joinStrings (js ", ")
          (missingFields (requiredFields
            (sampleItemBody ++ [(js "itemNm", JSVal.str (js ""))]))))) ∧
    (postItems (.obj (sampleItemBody ++ [(js "itemNm", JSVal.str (js ""))])) 12
        (js "2026-01-01T00:00:00.000Z")
        { refOk := fun _ => true, setOk := fun _ => true }).2 = [] :=
  ⟨rfl, ((postItems_missing_fields (.obj (sampleItemBody ++ [(js "itemNm", JSVal.str (js ""))]))
      12 (js "2026-01-01T00:00:00.000Z")
      { refOk := fun _ => true, setOk := fun _ => true }).1 _ rfl).2 (by decide)⟩

/-- C16 (what the code does): a request that omits `itemCd` and supplies every
other required field is answered with status 400 and the error
`"Missing required fields: itemCd"`; nothing is written, and no item code is
generated or returned. -/
theorem postItems_omitted_itemCd (data : List (JSString × JSVal)) (draw : Nat)
    (iso : JSString) (store : Store)
    (habs : hasOwn data (js "itemCd") = false)
    (hothers : ∀ g ∈ requiredFieldNames, g ≠ js "itemCd" →
      (truthy (getProp data g) = true ∨ strictEqualsZero (getProp data g) = true)) :
    postItems (.obj data) draw iso store = (missingFieldsResponse [js "itemCd"], []) ∧
    (missingFieldsResponse [js "itemCd"]).status = 400 ∧
    (missingFieldsResponse [js "itemCd"]).error
      = some (.text (js "Missing required fields: itemCd")) ∧
    (missingFieldsResponse [js "itemCd"]).data = [] := by
  have hmiss : missingFields (requiredFields data) = [js "itemCd"] := by
    rw [missingFields_eq_filter]
    apply filter_eq_singleton _ _ _ requiredFieldNames_nodup (by decide)
    · rw [getProp_absent data (js "itemCd") habs]
      rfl
    · intro g hg hgf
      exact (present_iff _).mpr (hothers g hg hgf)
  refine ⟨?_, rfl, rfl, rfl⟩
  rw [postItems_of_missing data (.obj data) draw iso store rfl (by rw [hmiss]; simp), hmiss]

theorem postItems_omitted_itemCd_witness :
    hasOwn (sampleItemBody.filter (fun kv => decide (kv.1 ≠ js "itemCd"))) (js "itemCd")
      = false ∧
    (∀ g ∈ requiredFieldNames, g ≠ js "itemCd" →
      (truthy (getProp (sampleItemBody.filter (fun kv => decide (kv.1 ≠ js "itemCd"))) g)
          = true ∨
        strictEqualsZero
          (getProp (sampleItemBody.filter (fun kv => decide (kv.1 ≠ js "itemCd"))) g)
          = true)) ∧
    (postItems (.obj (sampleItemBody.filter (fun kv => decide (kv.1 ≠ js "itemCd")))) 12
        (js "2026-01-01T00:00:00.000Z") { refOk := fun _ => true, setOk := fun _ => true }
      = (missingFieldsResponse [js "itemCd"], []) ∧
    (missingFieldsResponse [js "itemCd"]).status = 400 ∧
    (missingFieldsResponse [js "itemCd"]).error
      = some (.text (js "Missing required fields: itemCd")) ∧
    (missingFieldsResponse [js "itemCd"]).data = []) :=
  ⟨by decide, by decide,
   postItems_omitted_itemCd _ 12 (js "2026-01-01T00:00:00.000Z")
    { refOk := fun _ => true, setOk := fun _ => true } (by decide) (by decide)⟩

/-- Sample runs of `POST /api/items`: a complete request is saved under its
own item code; a request with two missing fields is answered with their names;
a request without a body takes the `catch` clause. -/
theorem postItems_samples :
    postItems (.obj (sampleItemBody ++ [(js "adminId", JSVal.str (js "a1")),
          (js "districtId", JSVal.str (js "d1")), (js "schoolId", JSVal.str (js "s1"))]))
        12 (js "2026-01-01T00:00:00.000Z")
        { refOk := fun _ => true, setOk := fun _ => true }
      = (itemSavedResponse (.str (js "RW2NTU0000012")) (js "2026-01-01T00:00:00.000Z"),
         [{ path := [.str (js "admin"), .str (js "a1"), .str (js "district"),
                     .str (js "d1"), .str (js "school"), .str (js "s1"),
                     .str (js "inventory"), .str (js "RW2NTU0000012")],
            itemCd := .str (js "RW2NTU0000012") },
          { path := [.str (js "vsdc_items"), .str (js "RW2NTU0000012")],
            itemCd := .str (js "RW2NTU0000012") }]) ∧
    (postItems (.obj [(js "tin", .str (js "123"))]) 12 (js "2026-01-01T00:00:00.000Z")
        { refOk := fun _ => true, setOk := fun _ => true }).1.status = 400 ∧
    (postItems (.obj ((sampleItemBody ++ [(js "itemNm", JSVal.str (js ""))])
          ++ [(js "tin", JSVal.null)])) 12 (js "2026-01-01T00:00:00.000Z")
        { refOk := fun _ => true, setOk := fun _ => true }).1.error
      = some (.text (js "Missing required fields: tin, itemNm")) ∧
    postItems .undefined 12 (js "2026-01-01T00:00:00.000Z")
        { refOk := fun _ => true, setOk := fun _ => true } = (serverError, []) ∧
    resultDt (js "2026-01-01T00:00:00.000Z") = js "20260101T00000" := by
  refine ⟨rfl, rfl, rfl, rfl, rfl⟩

/-! ## Lemmas on `verifyFirebaseToken` -/

theorem split_ne_nil (s : JSString) (separator : CodeUnit) : split s separator ≠ [] := by
  cases s with
  | nil => simp [split]
  | cons c rest =>
    unfold split
    split_ifs
    · simp
    · split <;> simp

theorem startsWith_iff (s searchString : JSString) :
    startsWith s searchString = true ↔ ∃ rest, s = searchString ++ rest := by
  unfold startsWith
  rw [List.isPrefixOf_iff_prefix]
  constructor
  · rintro ⟨rest, h⟩
    exact ⟨rest, h.symm⟩
  · rintro ⟨rest, h⟩
    exact ⟨rest, h.symm⟩

theorem split_bearer (rest : JSString) :
    split (js "Bearer " ++ rest) 32 = js "Bearer" :: split rest 32 := by
  have h : js "Bearer " = [66, 101, 97, 114, 101, 114, 32] := by decide
  have h' : js "Bearer" = [66, 101, 97, 114, 101, 114] := by decide
  rw [h, h']
  simp [split]

theorem split_bearer_second (rest : JSString) :
    ∃ first others, split rest 32 = first :: others ∧
      (split (js "Bearer " ++ rest) 32)[1]? = some first := by
  rw [split_bearer]
  cases hs : split rest 32 with
  | nil => exact absurd hs (split_ne_nil rest 32)
  | cons first others => exact ⟨first, others, rfl, by simp⟩

/-- C17: the middleware answers 401 `"No token provided"`, without calling the
verifier, exactly when the `Authorization` header is absent or does not start
with `"Bearer "`. Otherwise it calls the verifier exactly once, with the second
space-separated segment of the header; it calls `next` with `req.user` set to
the result of the verifier when the verifier succeeds, and answers 401
`"Invalid token"` when it fails. -/
theorem verifyFirebaseToken_delegates (authorization : Option JSString)
    (verifyIdToken : JSVal → Option JSVal) :
    (verifyFirebaseToken authorization verifyIdToken
        = (.responded (unauthorized (js "No token provided")), []) ↔
      (authorization = none ∨
        ∃ header, authorization = some header ∧ startsWith header (js "Bearer ") = false)) ∧
    (∀ header, authorization = some header → startsWith header (js "Bearer ") = true →
      ∃ token, (split header 32)[1]? = some token ∧
        (verifyFirebaseToken authorization verifyIdToken).2 = [.str token] ∧
        (∀ decoded, verifyIdToken (.str token) = some decoded →
          (verifyFirebaseToken authorization verifyIdToken).1 = .next decoded) ∧
        (verifyIdToken (.str token) = none →
          (verifyFirebaseToken authorization verifyIdToken).1
            = .responded (unauthorized (js "Invalid token")))) := by
  have hstart : ∀ header, startsWith header (js "Bearer ") = true →
      ∃ token, (split header 32)[1]? = some token ∧
        verifyFirebaseToken (some header) verifyIdToken =
          (match verifyIdToken (.str token) with
           | some decoded => (.next decoded, [.str token])
           | none => (.responded (unauthorized (js "Invalid token")), [.str token])) := by
    intro header hs
    obtain ⟨rest, hrest⟩ := (startsWith_iff header (js "Bearer ")).mp hs
    obtain ⟨first, others, _, hsecond⟩ := split_bearer_second rest
    rw [← hrest] at hsecond
    refine ⟨first, hsecond, ?_⟩
    have hne : header ≠ [] := by
      intro hnil
      rw [hnil] at hs
      exact absurd hs (by decide)
    simp only [verifyFirebaseToken, hne, hs, hsecond, false_or, Bool.true_eq_false, if_false]
  constructor
  · constructor
    · intro h
      cases authorization with
      | none => exact Or.inl rfl
      | some header =>
        right
        refine ⟨header, rfl, ?_⟩
        by_contra hs
        rw [Bool.not_eq_false] at hs
        obtain ⟨token, _, hrun⟩ := hstart header hs
        rw [hrun] at h
        cases hv : verifyIdToken (.str token) with
        | none =>
          rw [hv] at h
          simp at h
        | some decoded =>
          rw [hv] at h
          simp at h
    · rintro (h | ⟨header, h, hs⟩)
      · rw [h]; rfl
      · rw [h]
        simp [verifyFirebaseToken, hs]
  · intro header h hs
    obtain ⟨token, htoken, hrun⟩ := hstart header hs
    rw [h, hrun]
    refine ⟨token, htoken, ?_, ?_, ?_⟩
    · cases verifyIdToken (.str token) <;> rfl
    · intro decoded hv
      rw [hv]
    · intro hv
      rw [hv]

theorem verifyFirebaseToken_delegates_witness :
    (some (js "Bearer abc.def ghi") : Option JSString) = some (js "Bearer abc.def ghi") ∧
    startsWith (js "Bearer abc.def ghi") (js "Bearer ") = true ∧
    ∃ token, (split (js "Bearer abc.def ghi") 32)[1]? = some token ∧
      (verifyFirebaseToken (some (js "Bearer abc.def ghi"))
        (fun t => some (.obj [(js "uid", t)]))).2 = [.str token] ∧
      (∀ decoded, (fun t => some (JSVal.obj [(js "uid", t)])) (JSVal.str token) = some decoded →
        (verifyFirebaseToken (some (js "Bearer abc.def ghi"))
          (fun t => some (.obj [(js "uid", t)]))).1 = .next decoded) ∧
      ((fun t => some (JSVal.obj [(js "uid", t)])) (JSVal.str token) = none →
        (verifyFirebaseToken (some (js "Bearer abc.def ghi"))
          (fun t => some (.obj [(js "uid", t)]))).1
          = .responded (unauthorized (js "Invalid token"))) :=
  ⟨rfl, by decide,
   (verifyFirebaseToken_delegates (some (js "Bearer abc.def ghi"))
      (fun t => some (.obj [(js "uid", t)]))).2 (js "Bearer abc.def ghi") rfl (by decide)⟩

/-- Sample runs of the middleware: the token handed to the verifier is the
second segment, also when it is empty. -/
theorem verifyFirebaseToken_samples :
    (verifyFirebaseToken (some (js "Bearer abc.def ghi")) (fun _ => none)).2
      = [.str (js "abc.def")] ∧
    (verifyFirebaseToken (some (js "Bearer ")) (fun _ => none)).2 = [.str (js "")] ∧
    (verifyFirebaseToken (some (js "bearer abc")) (fun _ => none)).2 = [] ∧
    (verifyFirebaseToken (some (js "")) (fun _ => none)).2 = [] ∧
    (verifyFirebaseToken none (fun _ => none)).2 = [] := by
  refine ⟨rfl, rfl, rfl, rfl, rfl⟩

/-! ## Lemmas on the item-code helper endpoint -/

theorem truthy_orElse (v d : JSVal) (hd : truthy d = true) : truthy (orElse v d) = true := by
  unfold orElse
  by_cases hv : truthy v = true
  · rw [if_pos hv]; exact hv
  · rw [if_neg hv]; exact hd

theorem generateItemCode_of_rendered (o t p q : JSVal) (a b c d : JSString) (draw : Nat)
    (ho : truthy o = true) (ht : truthy t = true) (hp : truthy p = true)
    (hq : truthy q = true)
    (ha : toStr o = .ok a) (hb : toStr t = .ok b) (hc : toStr p = .ok c)
    (hd : toStr q = .ok d) :
    generateItemCode o t p q .undefined draw
      = .ok (a ++ b ++ c ++ d ++ padStart (numberToString (JSNumber.ofNat draw)) 7 (js "0")) := by
  unfold generateItemCode
  simp only [orDefault_of_truthy o _ ho, orDefault_of_truthy t _ ht,
    orDefault_of_truthy p _ hp, orDefault_of_truthy q _ hq, ha, hb, hc, hd]
  simp [orDefault, truthy, toStr]

/-- C18, as stated, fails: a request body whose `orgnNatCd` is an object with
its own `toString` member cannot be rendered; the handler returns no item code
and answers with the 500 response. -/
theorem generateItemCodeHandler_counterexample :
    generateItemCodeHandler
        (.obj [(js "orgnNatCd", .obj [(js "toString", .num (.fin false 1 0))])]) 12
      = serverError ∧
    serverError.status = 500 ∧ serverError.data = [] := by
  refine ⟨rfl, rfl, rfl⟩

/-- C18 (amended): for every request mapping whose four components, after
defaulting, can be rendered as strings `a`, `b`, `c`, `d`, the endpoint answers
with `itemCode = a ++ b ++ c ++ d ++ seq`, where `seq` is the draw as 7 decimal
digits; a component that is absent (`undefined`), `null` or the empty string is
replaced by its default and a non-empty string is kept; for the empty mapping
the code is `"RW2NTU"` followed by 7 decimal digits and has length 13. -/
theorem generateItemCodeHandler_code (data : List (JSString × JSVal)) (draw : Nat)
    (a b c d : JSString) (hn : draw < 10 ^ 7)
    (ha : toStr (orElse (getProp data (js "orgnNatCd")) (.str (js "RW"))) = .ok a)
    (hb : toStr (orElse (getProp data (js "itemTyCd")) (.str (js "2"))) = .ok b)
    (hc : toStr (orElse (getProp data (js "pkgUnitCd")) (.str (js "NT"))) = .ok c)
    (hd : toStr (orElse (getProp data (js "qtyUnitCd")) (.str (js "U"))) = .ok d) :
    (∃ seq : JSString,
      generateItemCodeHandler (.obj data) draw = itemCodeResponse (a ++ b ++ c ++ d ++ seq) ∧
      seq.length = 7 ∧ (∀ u ∈ seq, isDigit u = true) ∧ decimalValue seq = draw) ∧
    (∀ v dflt : JSVal, (v = .undefined ∨ v = .null ∨ v = .str []) → orElse v dflt = dflt) ∧
    (∀ (s : JSString) (dflt : JSVal), s ≠ [] → orElse (.str s) dflt = .str s) ∧
    (∃ seq : JSString,
      generateItemCodeHandler (.obj []) draw = itemCodeResponse (js "RW2NTU" ++ seq) ∧
      seq.length = 7 ∧ (∀ u ∈ seq, isDigit u = true) ∧ (js "RW2NTU" ++ seq).length = 13) ∧
    (∀ (v : JSVal) (dflt : JSString),
      (v = .undefined ∨ v = .null ∨ (∃ flag, v = .bool flag) ∨ (∃ x, v = .num x) ∨
        (∃ s, v = .str s)) →
      ∃ rendered, toStr (orElse v (.str dflt)) = .ok rendered) := by
  have hseq := generated_sequence draw hn
  refine ⟨⟨_, ?_, hseq⟩, ?_, ?_, ⟨_, ?_, hseq.1, hseq.2.1, ?_⟩, ?_⟩
  · simp only [generateItemCodeHandler, destructure]
    rw [generateItemCode_of_rendered _ _ _ _ a b c d draw
      (truthy_orElse _ _ (by decide)) (truthy_orElse _ _ (by decide))
      (truthy_orElse _ _ (by decide)) (truthy_orElse _ _ (by decide)) ha hb hc hd]
  · rintro v dflt (h | h | h) <;> rw [h] <;> rfl
  · intro s dflt hs
    simp [orElse, truthy, hs]
  · have h : generateItemCodeHandler (.obj []) draw =
        (match generateItemCode (.str (js "RW")) (.str (js "2")) (.str (js "NT"))
            (.str (js "U")) .undefined draw with
         | .error _ => serverError
         | .ok itemCode => itemCodeResponse itemCode) := rfl
    rw [h, generateItemCode_generated]
    rfl
  · rw [List.length_append, hseq.1]
    rfl
  · intro v dflt hv
    unfold orElse
    by_cases ht : truthy v = true
    · rw [if_pos ht]
      rcases hv with h | h | ⟨flag, h⟩ | ⟨x, h⟩ | ⟨s, h⟩ <;> rw [h] <;> exact ⟨_, rfl⟩
    · rw [if_neg ht]
      exact ⟨_, rfl⟩

theorem generateItemCodeHandler_code_witness :
    12 < 10 ^ 7 ∧
    toStr (orElse (getProp [(js "orgnNatCd", JSVal.str (js "UG")), (js "itemTyCd", JSVal.null),
        (js "qtyUnitCd", JSVal.str (js ""))] (js "orgnNatCd")) (.str (js "RW")))
      = .ok (js "UG") ∧
    toStr (orElse (getProp [(js "orgnNatCd", JSVal.str (js "UG")), (js "itemTyCd", JSVal.null),
        (js "qtyUnitCd", JSVal.str (js ""))] (js "itemTyCd")) (.str (js "2")))
      = .ok (js "2") ∧
    toStr (orElse (getProp [(js "orgnNatCd", JSVal.str (js "UG")), (js "itemTyCd", JSVal.null),
        (js "qtyUnitCd", JSVal.str (js ""))] (js "pkgUnitCd")) (.str (js "NT")))
      = .ok (js "NT") ∧
    toStr (orElse (getProp [(js "orgnNatCd", JSVal.str (js "UG")), (js "itemTyCd", JSVal.null),
        (js "qtyUnitCd", JSVal.str (js ""))] (js "qtyUnitCd")) (.str (js "U")))
      = .ok (js "U") ∧
    (∃ seq : JSString,
      generateItemCodeHandler (.obj [(js "orgnNatCd", JSVal.str (js "UG")),
          (js "itemTyCd", JSVal.null), (js "qtyUnitCd", JSVal.str (js ""))]) 12
        = itemCodeResponse (js "UG" ++ js "2" ++ js "NT" ++ js "U" ++ seq) ∧
      seq.length = 7 ∧ (∀ u ∈ seq, isDigit u = true) ∧ decimalValue seq = 12) :=
  ⟨by norm_num, rfl, rfl, rfl, rfl,
   (generateItemCodeHandler_code [(js "orgnNatCd", JSVal.str (js "UG")),
      (js "itemTyCd", JSVal.null), (js "qtyUnitCd", JSVal.str (js ""))] 12
      (js "UG") (js "2") (js "NT") (js "U") (by norm_num) rfl rfl rfl rfl).1⟩

/-- Sample runs of the item-code helper endpoint. -/
theorem generateItemCodeHandler_samples :
    generateItemCodeHandler (.obj []) 12 = itemCodeResponse (js "RW2NTU0000012") ∧
    generateItemCodeHandler (.obj [(js "itemTyCd", .num (.fin false 3 0)),
        (js "qtyUnitCd", .str (js "KG"))]) 345
      = itemCodeResponse (js "RW3NTKG0000345") ∧
    generateItemCodeHandler .undefined 12 = serverError := by
  refine ⟨rfl, rfl, rfl⟩

/-! ## Lemmas on `callVsdcApi` -/

theorem truthy_orDefault_null (v : JSVal) : truthy (orDefault v .null) = truthy v := by
  cases v <;> rfl

theorem toStr_orDefault_null (v : JSVal) (h : truthy v = true) :
    toStr (orDefault v .null) = toStr v := by
  rw [orDefault_of_truthy v .null h]

theorem vsdcRequest_ok (config : VsdcConfig) (endpoint method data token : JSVal)
    (request : AxiosRequest)
    (h : vsdcRequest config endpoint method data token = .ok request) :
    (∃ baseUrl base path, ebmApiUrl config = .ok baseUrl ∧ toStr baseUrl = .ok base ∧
      toStr endpoint = .ok path ∧ request.url = base ++ path) ∧
    (truthy token = true →
      ∃ t, toStr token = .ok t ∧
        request.headers = [(js "Content-Type", js "application/json"),
                           (js "Authorization", js "Bearer " ++ t)]) ∧
    (truthy token = false →
      request.headers = [(js "Content-Type", js "application/json")]) ∧
    request.timeout = 30000 ∧
    request.method = orDefault method (.str (js "POST")) ∧
    request.data = orDefault data .null := by
  unfold vsdcRequest at h
  cases h1 : ebmApiUrl config with
  | error err => simp [h1] at h
  | ok baseUrl =>
    cases h2 : toStr baseUrl with
    | error err => simp [h1, h2] at h
    | ok base =>
      cases h3 : toStr endpoint with
      | error err => simp [h1, h2, h3] at h
      | ok path =>
        simp only [h1, h2, h3, truthy_orDefault_null] at h
        by_cases ht : truthy token = true
        · rw [if_pos ht, toStr_orDefault_null token ht] at h
          cases h4 : toStr token with
          | error err => simp [h4] at h
          | ok t =>
            simp only [h4] at h
            have hr := Except.ok.inj h
            subst hr
            exact ⟨⟨baseUrl, base, path, rfl, h2, rfl, rfl⟩, fun _ => ⟨t, rfl, rfl⟩,
              fun hf => absurd ht (by simp [hf]), rfl, rfl, rfl⟩
        · rw [if_neg ht] at h
          have hr := Except.ok.inj h
          subst hr
          exact ⟨⟨baseUrl, base, path, rfl, h2, rfl, rfl⟩, fun hp => absurd hp ht,
            fun _ => rfl, rfl, rfl, rfl⟩

theorem vsdcRequest_complete (config : VsdcConfig) (endpoint method data token : JSVal)
    (baseUrl : JSVal) (base path : JSString)
    (h1 : ebmApiUrl config = .ok baseUrl) (h2 : toStr baseUrl = .ok base)
    (h3 : toStr endpoint = .ok path) :
    (truthy token = false →
      vsdcRequest config endpoint method data token =
        .ok { method := orDefault method (.str (js "POST")), url := base ++ path,
              data := orDefault data .null,
              headers := [(js "Content-Type", js "application/json")],
              timeout := 30000 }) ∧
    (∀ t, truthy token = true → toStr token = .ok t →
      vsdcRequest config endpoint method data token =
        .ok { method := orDefault method (.str (js "POST")), url := base ++ path,
              data := orDefault data .null,
              headers := [(js "Content-Type", js "application/json"),
                          (js "Authorization", js "Bearer " ++ t)],
              timeout := 30000 }) := by
  constructor
  · intro hf
    simp only [vsdcRequest, h1, h2, h3, truthy_orDefault_null, hf]
    rfl
  · intro t ht hs
    simp only [vsdcRequest, h1, h2, h3, truthy_orDefault_null, ht,
      toStr_orDefault_null token ht, hs]
    rfl

theorem axiosFailure_of_response (err : AxiosError) (r : AxiosResponse)
    (h : err.response = some r) :
    axiosFailure err =
      .failed (if truthy r.data then .upstream r.data else .message (.text err.message))
        (if r.status = 0 then 500 else r.status) := by
  unfold axiosFailure
  rw [h]
  by_cases h0 : r.status = 0
  · simp [h0]
  · simp [h0]

theorem axiosFailure_of_none (err : AxiosError) (h : err.response = none) :
    axiosFailure err = .failed (.message (.text err.message)) 500 := by
  unfold axiosFailure
  rw [h]

/-- C19, as stated, fails. A token that is an object with its own `toString`
member is truthy, but the header `"Bearer " ++ token` cannot be built: the
exception is caught, no request is made although the HTTP client would
succeed, and the result is `success: false` with status 500. And an upstream
response whose status is 0 is reported with status 500, not with its own. -/
theorem callVsdcApi_counterexample :
    truthy (.obj [(js "toString", .num (.fin false 1 0))]) = true ∧
    callVsdcApi defaultConfig (.str (js "/items/saveItems")) .undefined .undefined
        (.obj [(js "toString", .num (.fin false 1 0))])
        (fun _ => .ok (AxiosResponse.mk .null 200))
      = (.failed (.message .exceptionMessage) 500, none) ∧
    (callVsdcApi defaultConfig (.str (js "/items/saveItems")) .undefined .undefined
        .undefined
        (fun _ => .error (AxiosError.mk (js "Request failed with status code 0")
          (some (AxiosResponse.mk (.str (js "down")) 0))))).1
      = .failed (.upstream (.str (js "down"))) 500 := by
  exact ⟨rfl, rfl, rfl⟩

/-- C19 (amended): `callVsdcApi` is a pass-through that always returns.
Whenever the base URL, the endpoint and a truthy token can be rendered as
strings, the request is built: its URL is the configured base URL followed by
the endpoint, it carries the header `Authorization: "Bearer " ++ token`
exactly when `token` is truthy, and the single timeout is 30000 ms. A request
that is built is handed to the HTTP client; if the call succeeds the result is
`success: true` with the response body and status; if it fails the result is
`success: false` with the upstream status when there is a response with a
status other than 0, and 500 otherwise. When the request cannot be built (an
exception before the call) nothing is sent and the result is `success: false`
with status 500. -/
theorem callVsdcApi_passthrough (config : VsdcConfig) (endpoint method data token : JSVal)
    (http : AxiosRequest → Except AxiosError AxiosResponse) :
    (∀ baseUrl base path, ebmApiUrl config = .ok baseUrl → toStr baseUrl = .ok base →
      toStr endpoint = .ok path →
      (truthy token = false →
        vsdcRequest config endpoint method data token =
          .ok { method := orDefault method (.str (js "POST")), url := base ++ path,
                data := orDefault data .null,
                headers := [(js "Content-Type", js "application/json")],
                timeout := 30000 }) ∧
      (∀ t, truthy token = true → toStr token = .ok t →
        vsdcRequest config endpoint method data token =
          .ok { method := orDefault method (.str (js "POST")), url := base ++ path,
                data := orDefault data .null,
                headers := [(js "Content-Type", js "application/json"),
                            (js "Authorization", js "Bearer " ++ t)],
                timeout := 30000 })) ∧
    (∀ request, vsdcRequest config endpoint method data token = .ok request →
      (callVsdcApi config endpoint method data token http).2 = some request ∧
      ((∃ v, (js "Authorization", v) ∈ request.headers) ↔ truthy token = true) ∧
      (∃ baseUrl base path, ebmApiUrl config = .ok baseUrl ∧ toStr baseUrl = .ok base ∧
        toStr endpoint = .ok path ∧ request.url = base ++ path) ∧
      request.timeout = 30000 ∧
      (∀ response, http request = .ok response →
        (callVsdcApi config endpoint method data token http).1
          = .succeeded response.data response.status) ∧
      (∀ err r, http request = .error err → err.response = some r →
        (callVsdcApi config endpoint method data token http).1
          = .failed (if truthy r.data then .upstream r.data
                     else .message (.text err.message))
              (if r.status = 0 then 500 else r.status)) ∧
      (∀ err, http request = .error err → err.response = none →
        (callVsdcApi config endpoint method data token http).1
          = .failed (.message (.text err.message)) 500)) ∧
    (∀ err, vsdcRequest config endpoint method data token = .error err →
      callVsdcApi config endpoint method data token http
        = (.failed (.message .exceptionMessage) 500, none)) ∧
    (config.currentEnv = js "test" → ebmApiUrl config = .ok (.str config.testUrl)) ∧
    (config.currentEnv = js "production" →
      ebmApiUrl config = .ok (.str config.productionUrl)) ∧
    (config.currentEnv ≠ js "test" → config.currentEnv ≠ js "production" →
      ((config.currentEnv = js "currentEnv" ∨ config.currentEnv = js "defaultBhfId" ∨
          config.currentEnv ∈ objectPrototypeNames) → ebmApiUrl config = .ok .undefined) ∧
      (¬ (config.currentEnv = js "currentEnv" ∨ config.currentEnv = js "defaultBhfId" ∨
          config.currentEnv ∈ objectPrototypeNames) →
        ebmApiUrl config = .error .typeError)) := by
  refine ⟨?_, ?_, ?_, ?_, ?_, ?_⟩
  · intro baseUrl base path h1 h2 h3
    exact vsdcRequest_complete config endpoint method data token baseUrl base path h1 h2 h3
  · intro request hbuilt
    obtain ⟨hurl, hyes, hno, htimeout, _, _⟩ :=
      vsdcRequest_ok config endpoint method data token request hbuilt
    have hsent : (callVsdcApi config endpoint method data token http).2 = some request := by
      simp only [callVsdcApi, hbuilt]
      cases http request <;> rfl
    refine ⟨hsent, ?_, hurl, htimeout, ?_, ?_, ?_⟩
    · constructor
      · rintro ⟨v, hv⟩
        by_contra ht
        rw [Bool.not_eq_true] at ht
        rw [hno ht] at hv
        simp at hv
        exact absurd hv.1 (by decide)
      · intro ht
        obtain ⟨t, _, hh⟩ := hyes ht
        exact ⟨js "Bearer " ++ t, by rw [hh]; simp⟩
    · intro response hr
      simp only [callVsdcApi, hbuilt, hr]
    · intro err r hr hresp
      simp only [callVsdcApi, hbuilt, hr]
      exact axiosFailure_of_response err r hresp
    · intro err hr hresp
      simp only [callVsdcApi, hbuilt, hr]
      exact axiosFailure_of_none err hresp
  · intro err herr
    simp only [callVsdcApi, herr]
    rfl
  · intro h
    simp [ebmApiUrl, h]
  · intro h
    have hne : js "production" ≠ js "test" := by decide
    simp [ebmApiUrl, h, hne]
  · intro h1 h2
    constructor
    · intro h3
      simp only [ebmApiUrl, if_neg h1, if_neg h2, if_pos h3]
    · intro h3
      simp only [ebmApiUrl, if_neg h1, if_neg h2, if_neg h3]

theorem callVsdcApi_passthrough_witness :
    vsdcRequest defaultConfig (.str (js "/items/saveItems")) .undefined
        (.obj [(js "tin", .str (js "123"))]) (.str (js "tok"))
      = .ok { method := .str (js "POST"),
              url := js "https://sedsandbox.rra.gov.rw/items/saveItems",
              data := .obj [(js "tin", .str (js "123"))],
              headers := [(js "Content-Type", js "application/json"),
                          (js "Authorization", js "Bearer tok")],
              timeout := 30000 } ∧
    (callVsdcApi defaultConfig (.str (js "/items/saveItems")) .undefined
        (.obj [(js "tin", .str (js "123"))]) (.str (js "tok"))
        (fun _ => .ok (AxiosResponse.mk (.obj [(js "resultCd", .str (js "000"))])
          200))).1
      = .succeeded (.obj [(js "resultCd", .str (js "000"))]) 200 ∧
    (callVsdcApi defaultConfig (.str (js "/items/saveItems")) .undefined
        (.obj [(js "tin", .str (js "123"))]) (.str (js "tok"))
        (fun _ => .error (AxiosError.mk (js "Request failed with status code 404")
          (some (AxiosResponse.mk (.str (js "Not Found")) 404))))).1
      = .failed (.upstream (.str (js "Not Found"))) 404 :=
  ⟨rfl,
   ((callVsdcApi_passthrough defaultConfig (.str (js "/items/saveItems")) .undefined
      (.obj [(js "tin", .str (js "123"))]) (.str (js "tok"))
      (fun _ => .ok (AxiosResponse.mk (.obj [(js "resultCd", .str (js "000"))])
        200))).2.1 _ rfl).2.2.2.2.1 _ rfl,
   ((callVsdcApi_passthrough defaultConfig (.str (js "/items/saveItems")) .undefined
      (.obj [(js "tin", .str (js "123"))]) (.str (js "tok"))
      (fun _ => .error (AxiosError.mk (js "Request failed with status code 404")
        (some (AxiosResponse.mk (.str (js "Not Found"))
          404))))).2.1 _ rfl).2.2.2.2.2.1 _ _ rfl rfl⟩

/-- Sample runs of `callVsdcApi`: the only caller passes no token, so no
`Authorization` header is sent; an upstream 404 is passed on; a network failure
gives status 500; an unusable configuration gives status 500 without any
request. -/
theorem callVsdcApi_samples :
    (callVsdcApi defaultConfig (.str (js "/items/saveItems")) (.str (js "POST")) .null
        .undefined (fun _ => .error (AxiosError.mk (js "Request failed with status code 404")
          (some (AxiosResponse.mk (.str (js "Not Found")) 404)))))
      = (.failed (.upstream (.str (js "Not Found"))) 404,
         some { method := .str (js "POST"),
                url := js "https://sedsandbox.rra.gov.rw/items/saveItems",
                data := .null,
                headers := [(js "Content-Type", js "application/json")],
                timeout := 30000 }) ∧
    (callVsdcApi defaultConfig (.str (js "/items/saveItems")) .undefined .undefined
        .undefined (fun _ => .error (AxiosError.mk (js "timeout of 30000ms exceeded") none))).1
      = .failed (.message (.text (js "timeout of 30000ms exceeded"))) 500 ∧
    callVsdcApi { testUrl := js "a", productionUrl := js "b", currentEnv := js "staging",
                  defaultBhfId := js "00" } (.str (js "/x")) .undefined .undefined .undefined
        (fun _ => .ok (AxiosResponse.mk .null 200))
      = (.failed (.message .exceptionMessage) 500, none) := by
  refine ⟨rfl, rfl, rfl⟩

/-- C20, as stated, fails. With `FIREBASE_SERVICE_ACCOUNT` unset and
`FIREBASE_SERVICE_ACCOUNT_PATH` set, `src/firebaseAdmin.js` loads the file at
that path while `src/index.js` loads the local key file, and when only the file
at the path exists `src/index.js` fails and `src/firebaseAdmin.js` does not.
With both variables unset in the process and `FIREBASE_SERVICE_ACCOUNT` given
by the `.env` file, `src/index.js` parses that text while
`src/firebaseAdmin.js`, which does not run `dotenv`, loads the local key file. -/
theorem credentialLoading_counterexample :
    indexServiceAccount
        { serviceAccount := none, serviceAccountPath := some (js "/secrets/key.json"),
          dotenvServiceAccount := none, parses := fun _ => true, loads := fun _ => true }
      = .ok (.file (js "./serviceAccountKey.json")) ∧
    firebaseAdminServiceAccount
        { serviceAccount := none, serviceAccountPath := some (js "/secrets/key.json"),
          dotenvServiceAccount := none, parses := fun _ => true, loads := fun _ => true }
      = .ok (.file (js "/secrets/key.json")) ∧
    indexServiceAccount
        { serviceAccount := none, serviceAccountPath := some (js "/secrets/key.json"),
          dotenvServiceAccount := none, parses := fun _ => true,
          loads := fun p => decide (p = js "/secrets/key.json") }
      = .error (.loadFailed (js "./serviceAccountKey.json")) ∧
    firebaseAdminServiceAccount
        { serviceAccount := none, serviceAccountPath := some (js "/secrets/key.json"),
          dotenvServiceAccount := none, parses := fun _ => true,
          loads := fun p => decide (p = js "/secrets/key.json") }
      = .ok (.file (js "/secrets/key.json")) ∧
    indexServiceAccount
        { serviceAccount := none, serviceAccountPath := none,
          dotenvServiceAccount := some (js "service-account-json"),
          parses := fun _ => true, loads := fun _ => true }
      = .ok (.environmentJson (js "service-account-json")) ∧
    firebaseAdminServiceAccount
        { serviceAccount := none, serviceAccountPath := none,
          dotenvServiceAccount := some (js "service-account-json"),
          parses := fun _ => true, loads := fun _ => true }
      = .ok (.file (js "./serviceAccountKey.json")) := by
  decide

/-- C20 (amended): the two files select the same credential source and fail in
the same cases in every environment in which `FIREBASE_SERVICE_ACCOUNT` is set
in the process environment, and in every environment in which
`FIREBASE_SERVICE_ACCOUNT_PATH` is not set and `FIREBASE_SERVICE_ACCOUNT` is
not set after `dotenv` has read the `.env` file. In general `src/index.js`
parses the variable as `dotenv` completes it and otherwise loads the local key
file; `src/firebaseAdmin.js` parses the variable of the process, otherwise
loads the file at `FIREBASE_SERVICE_ACCOUNT_PATH`, otherwise the local key
file. -/
theorem credentialLoading_agree (env : CredentialEnv) :
    ((envSet env.serviceAccount = true ∨
        (envSet env.serviceAccountPath = false ∧ envSet (dotenvConfig env) = false)) →
      indexServiceAccount env = firebaseAdminServiceAccount env) ∧
    (envSet env.serviceAccount = true →
      indexServiceAccount env =
        (if env.parses (env.serviceAccount.getD [])
         then .ok (.environmentJson (env.serviceAccount.getD []))
         else .error .parseFailed) ∧
      firebaseAdminServiceAccount env =
        (if env.parses (env.serviceAccount.getD [])
         then .ok (.environmentJson (env.serviceAccount.getD []))
         else .error .parseFailed)) ∧
    (env.serviceAccount = none → envSet env.dotenvServiceAccount = true →
      indexServiceAccount env =
        (if env.parses (env.dotenvServiceAccount.getD [])
         then .ok (.environmentJson (env.dotenvServiceAccount.getD []))
         else .error .parseFailed)) ∧
    (envSet (dotenvConfig env) = false →
      indexServiceAccount env =
        (if env.loads (js "./serviceAccountKey.json")
         then .ok (.file (js "./serviceAccountKey.json"))
         else .error (.loadFailed (js "./serviceAccountKey.json")))) ∧
    (envSet env.serviceAccount = false → envSet env.serviceAccountPath = true →
      firebaseAdminServiceAccount env =
        (if env.loads (env.serviceAccountPath.getD [])
         then .ok (.file (env.serviceAccountPath.getD []))
         else .error (.loadFailed (env.serviceAccountPath.getD [])))) ∧
    (envSet env.serviceAccount = false → envSet env.serviceAccountPath = false →
      firebaseAdminServiceAccount env =
        (if env.loads (js "./serviceAccountKey.json")
         then .ok (.file (js "./serviceAccountKey.json"))
         else .error (.loadFailed (js "./serviceAccountKey.json")))) ∧
    ((∀ value, env.serviceAccount = some value → dotenvConfig env = some value) ∧
      (env.serviceAccount = none → dotenvConfig env = env.dotenvServiceAccount)) := by
  have hkeep : envSet env.serviceAccount = true → dotenvConfig env = env.serviceAccount := by
    intro h
    cases hs : env.serviceAccount with
    | none => rw [hs] at h; exact absurd h (by decide)
    | some v => simp [dotenvConfig, hs]
  refine ⟨?_, ?_, ?_, ?_, ?_, ?_, ⟨?_, ?_⟩⟩
  · rintro (h | ⟨hp, hd⟩)
    · simp [indexServiceAccount, firebaseAdminServiceAccount, hkeep h, h]
    · have hs : envSet env.serviceAccount = false := by
        cases hv : env.serviceAccount with
        | none => rfl
        | some v =>
          have : dotenvConfig env = some v := by simp [dotenvConfig, hv]
          rw [this] at hd
          exact hd
      simp [indexServiceAccount, firebaseAdminServiceAccount, hs, hp, hd]
  · intro h
    constructor
    · simp [indexServiceAccount, parseEnvironment, hkeep h, h]
    · simp [firebaseAdminServiceAccount, parseEnvironment, h]
  · intro hnone hd
    have : dotenvConfig env = env.dotenvServiceAccount := by simp [dotenvConfig, hnone]
    simp [indexServiceAccount, parseEnvironment, this, hd]
  · intro hd
    simp [indexServiceAccount, requireFile, hd]
  · intro hs hp
    simp [firebaseAdminServiceAccount, requireFile, hs, hp]
  · intro hs hp
    simp [firebaseAdminServiceAccount, requireFile, hs, hp]
  · intro value hv
    simp [dotenvConfig, hv]
  · intro hv
    simp [dotenvConfig, hv]

theorem credentialLoading_agree_witness :
    (envSet (some (js "service-account-json")) = true ∨
      (envSet (some (js "/secrets/key.json")) = false ∧
        envSet (dotenvConfig
          { serviceAccount := some (js "service-account-json"),
            serviceAccountPath := some (js "/secrets/key.json"),
            dotenvServiceAccount := some (js "other-json"),
            parses := fun _ => true, loads := fun _ => false }) = false)) ∧
    indexServiceAccount
        { serviceAccount := some (js "service-account-json"),
          serviceAccountPath := some (js "/secrets/key.json"),
          dotenvServiceAccount := some (js "other-json"),
          parses := fun _ => true, loads := fun _ => false }
      = firebaseAdminServiceAccount
        { serviceAccount := some (js "service-account-json"),
          serviceAccountPath := some (js "/secrets/key.json"),
          dotenvServiceAccount := some (js "other-json"),
          parses := fun _ => true, loads := fun _ => false } ∧
    firebaseAdminServiceAccount
        { serviceAccount := some (js "service-account-json"),
          serviceAccountPath := some (js "/secrets/key.json"),
          dotenvServiceAccount := some (js "other-json"),
          parses := fun _ => true, loads := fun _ => false }
      = .ok (.environmentJson (js "service-account-json")) ∧
    indexServiceAccount
        { serviceAccount := none, serviceAccountPath := none, dotenvServiceAccount := none,
          parses := fun _ => false, loads := fun _ => true }
      = firebaseAdminServiceAccount
        { serviceAccount := none, serviceAccountPath := none, dotenvServiceAccount := none,
          parses := fun _ => false, loads := fun _ => true } ∧
    firebaseAdminServiceAccount
        { serviceAccount := none, serviceAccountPath := none, dotenvServiceAccount := none,
          parses := fun _ => false, loads := fun _ => true }
      = .ok (.file (js "./serviceAccountKey.json")) :=
  ⟨Or.inl (by decide),
   (credentialLoading_agree
      { serviceAccount := some (js "service-account-json"),
        serviceAccountPath := some (js "/secrets/key.json"),
        dotenvServiceAccount := some (js "other-json"),
        parses := fun _ => true, loads := fun _ => false }).1 (Or.inl (by decide)),
   by decide,
   (credentialLoading_agree
      { serviceAccount := none, serviceAccountPath := none, dotenvServiceAccount := none,
        parses := fun _ => false, loads := fun _ => true }).1 (Or.inr ⟨by decide, by decide⟩),
   by decide⟩

/-! ## Lemmas on the time stamp -/

/-- Sample renderings of an instant and of its `resultDt`. -/
theorem toISOString_samples :
    toISOString { year := 2026, month := 11, day := 6, hour := 9, minute := 5, second := 47,
                  millisecond := 12 } = js "2026-11-06T09:05:47.012Z" ∧
    resultDt (js "2026-11-06T09:05:47.012Z") = js "20261106T09054" ∧
    toISOString { year := 12026, month := 1, day := 1, hour := 0, minute := 0, second := 0,
                  millisecond := 0 } = js "+012026-01-01T00:00:00.000Z" := by
  decide

theorem toZeroPadded_spec (n w : Nat) (hw : 1 ≤ w) (hw' : w ≤ 21) (h : n < 10 ^ w) :
    (toZeroPadded n w).length = w ∧ (∀ c ∈ toZeroPadded n w, isDigit c = true) ∧
      decimalValue (toZeroPadded n w) = n := by
  unfold toZeroPadded
  by_cases hn : n = 0
  · subst hn
    rw [numberToString_zero, padStart_zero]
    have hz : js "0" = [digitUnit 0] := by decide
    rw [hz]
    refine ⟨?_, ?_, ?_⟩
    · simp only [List.length_append, List.length_replicate, List.length_singleton]; omega
    · intro c hc
      rw [List.mem_append] at hc
      rcases hc with hc | hc
      · rw [List.eq_of_mem_replicate hc]; decide
      · rw [List.mem_singleton] at hc; rw [hc]; decide
    · rw [decimalValue_zeros_append]; decide
  · have hlt : n < 10 ^ 21 := lt_of_lt_of_le h (Nat.pow_le_pow_right (by norm_num) hw')
    rw [numberToString_ofNat n hn hlt, padStart_zero]
    have hlen : (decimal n).length ≤ w := by
      rw [decimal_length]; exact digits_length_le_of_lt_pow n w h
    have hdl : ∀ d ∈ Nat.digits 10 n, d < 10 := fun d hd => Nat.digits_lt_base (by norm_num) hd
    refine ⟨?_, ?_, ?_⟩
    · rw [List.length_append, List.length_replicate]; omega
    · intro c hc
      rw [List.mem_append] at hc
      rcases hc with hc | hc
      · rw [List.eq_of_mem_replicate hc]; decide
      · rw [decimal_eq, List.mem_map] at hc
        obtain ⟨d, hd, rfl⟩ := hc
        exact isDigit_digitUnit d (hdl d (List.mem_reverse.mp hd))
    · rw [decimalValue_zeros_append, decimal_eq, decimalValue_digits _ hdl, Nat.ofDigits_digits]

theorem toZeroPadded_two (n : Nat) (h : n < 100) :
    toZeroPadded n 2 = [digitUnit (n / 10), digitUnit (n % 10)] := by
  obtain ⟨hlen, hdig, hval⟩ := toZeroPadded_spec n 2 (by norm_num) (by norm_num) (by omega)
  generalize toZeroPadded n 2 = s at hlen hdig hval
  match s, hlen with
  | [a, b], _ =>
    have ha := hdig a (by simp)
    have hb := hdig b (by simp)
    simp only [isDigit, Bool.and_eq_true, decide_eq_true_eq] at ha hb
    simp only [decimalValue, List.foldl_cons, List.foldl_nil, zero_mul, zero_add] at hval
    have e1 : a = digitUnit (n / 10) := by
      apply Fin.ext
      have : (digitUnit (n / 10)).val = 48 + n / 10 := by
        unfold digitUnit
        simp only [Fin.ofNat, Fin.val_mk]
        omega
      rw [this]; omega
    have e2 : b = digitUnit (n % 10) := by
      apply Fin.ext
      have : (digitUnit (n % 10)).val = 48 + n % 10 := by
        unfold digitUnit
        simp only [Fin.ofNat, Fin.val_mk]
        omega
      rw [this]; omega
    rw [e1, e2]

theorem filter_digits (s : JSString) (h : ∀ c ∈ s, isDigit c = true) :
    s.filter (fun c => !(decide (c = 45) || decide (c = 58))) = s := by
  rw [List.filter_eq_self]
  intro c hc
  have hd := h c hc
  simp only [isDigit, Bool.and_eq_true, decide_eq_true_eq] at hd
  have h1 : c ≠ 45 := by
    intro he; rw [he] at hd; exact absurd hd.1 (by decide)
  have h2 : c ≠ 58 := by
    intro he; rw [he] at hd; exact absurd hd.2 (by decide)
  simp [h1, h2]

theorem inRange_bounds (t : UtcTime) (ht : t.inRange = true) :
    (0 ≤ t.year ∧ t.year ≤ 9999) ∧ t.year.toNat < 10 ^ 4 ∧ t.month < 100 ∧ t.day < 100 ∧
      t.hour < 100 ∧ t.minute < 100 ∧ t.second < 100 ∧ t.millisecond < 10 ^ 3 := by
  simp only [UtcTime.inRange, Bool.and_eq_true, decide_eq_true_eq] at ht
  refine ⟨⟨by omega, by omega⟩, ?_, by omega, by omega, by omega, by omega, by omega, ?_⟩
  · have : t.year.toNat ≤ 9999 := by omega
    norm_num
    omega
  · norm_num
    omega

theorem resultDt_toISOString (t : UtcTime) (ht : t.inRange = true) :
    resultDt (toISOString t) =
      toZeroPadded t.year.toNat 4 ++ toZeroPadded t.month 2 ++ toZeroPadded t.day 2 ++ js "T"
        ++ toZeroPadded t.hour 2 ++ toZeroPadded t.minute 2 ++ [digitUnit (t.second / 10)] := by
  obtain ⟨hy, hY, hM, hD, hh, hm, hs, hms⟩ := inRange_bounds t ht
  have pY := toZeroPadded_spec t.year.toNat 4 (by norm_num) (by norm_num) hY
  have pM := toZeroPadded_spec t.month 2 (by norm_num) (by norm_num) (by omega)
  have pD := toZeroPadded_spec t.day 2 (by norm_num) (by norm_num) (by omega)
  have ph := toZeroPadded_spec t.hour 2 (by norm_num) (by norm_num) (by omega)
  have pm := toZeroPadded_spec t.minute 2 (by norm_num) (by norm_num) (by omega)
  have pms := toZeroPadded_spec t.millisecond 3 (by norm_num) (by norm_num) hms
  have f1 : (js "-").filter (fun c => !(decide (c = 45) || decide (c = 58))) = [] := by decide
  have f2 : (js ":").filter (fun c => !(decide (c = 45) || decide (c = 58))) = [] := by decide
  have f3 : (js "T").filter (fun c => !(decide (c = 45) || decide (c = 58))) = js "T" := by
    decide
  have f4 : (js ".").filter (fun c => !(decide (c = 45) || decide (c = 58))) = js "." := by
    decide
  have f5 : (js "Z").filter (fun c => !(decide (c = 45) || decide (c = 58))) = js "Z" := by
    decide
  have f6 : [digitUnit (t.second / 10), digitUnit (t.second % 10)].filter
      (fun c => !(decide (c = 45) || decide (c = 58)))
      = [digitUnit (t.second / 10), digitUnit (t.second % 10)] := by
    apply filter_digits
    intro c hc
    simp only [List.mem_cons, List.mem_singleton, List.not_mem_nil, or_false] at hc
    rcases hc with hc | hc
    · rw [hc]; exact isDigit_digitUnit _ (by omega)
    · rw [hc]; exact isDigit_digitUnit _ (by omega)
  have hfilter : (toISOString t).filter (fun c => !(decide (c = 45) || decide (c = 58))) =
      (toZeroPadded t.year.toNat 4 ++ toZeroPadded t.month 2 ++ toZeroPadded t.day 2 ++ js "T"
        ++ toZeroPadded t.hour 2 ++ toZeroPadded t.minute 2 ++ [digitUnit (t.second / 10)])
      ++ (digitUnit (t.second % 10) :: (js "." ++ toZeroPadded t.millisecond 3 ++ js "Z")) := by
    unfold toISOString
    simp only [if_pos hy, toZeroPadded_two t.second hs, List.filter_append,
      filter_digits _ pY.2.1, filter_digits _ pM.2.1, filter_digits _ pD.2.1,
      filter_digits _ ph.2.1, filter_digits _ pm.2.1, filter_digits _ pms.2.1,
      f1, f2, f3, f4, f5, f6]
    simp only [List.append_nil, List.append_assoc, List.cons_append, List.nil_append]
  unfold resultDt
  rw [hfilter]
  apply List.take_left'
  simp only [List.length_append, pY.1, pM.1, pD.1, ph.1, pm.1, List.length_singleton]
  rfl

/-- C23: for every instant with a four-digit year, `resultDt` (the ISO string
with every `-` and `:` deleted, cut to 14 characters) is exactly 14 characters
long: the 8 digits `YYYYMMDD`, then the letter `T`, then `HHMM` and only the
tens digit of the seconds. It therefore contains the non-digit `T` and is never
the 14-digit form `yyyyMMddHHmmss`. It is the `resultDt` member of the success
response of `POST /api/items`. -/
theorem resultDt_shape (t : UtcTime) (ht : t.inRange = true) :
    resultDt (toISOString t) =
      toZeroPadded t.year.toNat 4 ++ toZeroPadded t.month 2 ++ toZeroPadded t.day 2 ++ js "T"
        ++ toZeroPadded t.hour 2 ++ toZeroPadded t.minute 2 ++ [digitUnit (t.second / 10)] ∧
    (resultDt (toISOString t)).length = 14 ∧
    ((resultDt (toISOString t)).take 8 =
        toZeroPadded t.year.toNat 4 ++ toZeroPadded t.month 2 ++ toZeroPadded t.day 2 ∧
      ∀ c ∈ (resultDt (toISOString t)).take 8, isDigit c = true) ∧
    ((resultDt (toISOString t)).drop 8 =
        js "T" ++ (toZeroPadded t.hour 2 ++ toZeroPadded t.minute 2
          ++ [digitUnit (t.second / 10)]) ∧
      ∀ c ∈ toZeroPadded t.hour 2 ++ toZeroPadded t.minute 2 ++ [digitUnit (t.second / 10)],
        isDigit c = true) ∧
    (∃ c ∈ resultDt (toISOString t), c = 84 ∧ js "T" = [c] ∧ isDigit c = false) ∧
    resultDt (toISOString t) ≠
      toZeroPadded t.year.toNat 4 ++ toZeroPadded t.month 2 ++ toZeroPadded t.day 2
        ++ toZeroPadded t.hour 2 ++ toZeroPadded t.minute 2 ++ toZeroPadded t.second 2 ∧
    (∀ code, (itemSavedResponse code (toISOString t)).resultDt
      = some (resultDt (toISOString t))) := by
  obtain ⟨hy, hY, hM, hD, hh, hm, hs, hms⟩ := inRange_bounds t ht
  have pY := toZeroPadded_spec t.year.toNat 4 (by norm_num) (by norm_num) hY
  have pM := toZeroPadded_spec t.month 2 (by norm_num) (by norm_num) (by omega)
  have pD := toZeroPadded_spec t.day 2 (by norm_num) (by norm_num) (by omega)
  have ph := toZeroPadded_spec t.hour 2 (by norm_num) (by norm_num) (by omega)
  have pm := toZeroPadded_spec t.minute 2 (by norm_num) (by norm_num) (by omega)
  have ps := toZeroPadded_spec t.second 2 (by norm_num) (by norm_num) (by omega)
  have hform := resultDt_toISOString t ht
  have hT : js "T" = [84] := by decide
  have hdate : ∀ c ∈ toZeroPadded t.year.toNat 4 ++ toZeroPadded t.month 2
      ++ toZeroPadded t.day 2, isDigit c = true := by
    intro c hc
    simp only [List.mem_append] at hc
    rcases hc with (hc | hc) | hc
    · exact pY.2.1 c hc
    · exact pM.2.1 c hc
    · exact pD.2.1 c hc
  have htime : ∀ c ∈ toZeroPadded t.hour 2 ++ toZeroPadded t.minute 2
      ++ [digitUnit (t.second / 10)], isDigit c = true := by
    intro c hc
    simp only [List.mem_append, List.mem_singleton] at hc
    rcases hc with (hc | hc) | hc
    · exact ph.2.1 c hc
    · exact pm.2.1 c hc
    · rw [hc]; exact isDigit_digitUnit _ (by omega)
  have hmem : (84 : CodeUnit) ∈ resultDt (toISOString t) := by
    rw [hform, hT]
    simp
  have htake : (resultDt (toISOString t)).take 8 =
      toZeroPadded t.year.toNat 4 ++ toZeroPadded t.month 2 ++ toZeroPadded t.day 2 := by
    rw [hform]
    simp only [List.append_assoc]
    rw [← List.append_assoc (toZeroPadded t.month 2), ← List.append_assoc]
    apply List.take_left'
    simp only [List.length_append, pY.1, pM.1, pD.1]
  refine ⟨hform, ?_, ⟨htake, ?_⟩, ⟨?_, htime⟩, ⟨84, hmem, rfl, hT, by decide⟩, ?_,
    fun _ => rfl⟩
  · rw [hform]
    simp only [List.length_append, pY.1, pM.1, pD.1, ph.1, pm.1, List.length_singleton]
    rfl
  · rw [htake]; exact hdate
  · rw [hform]
    simp only [List.append_assoc]
    rw [← List.append_assoc (toZeroPadded t.month 2), ← List.append_assoc]
    apply List.drop_left'
    simp only [List.length_append, pY.1, pM.1, pD.1]
  · intro heq
    have hall : isDigit (84 : CodeUnit) = true := by
      rw [heq] at hmem
      simp only [List.mem_append] at hmem
      rcases hmem with ((((hc | hc) | hc) | hc) | hc) | hc
      · exact pY.2.1 _ hc
      · exact pM.2.1 _ hc
      · exact pD.2.1 _ hc
      · exact ph.2.1 _ hc
      · exact pm.2.1 _ hc
      · exact ps.2.1 _ hc
    exact absurd hall (by decide)

theorem resultDt_shape_witness :
    UtcTime.inRange { year := 2026, month := 11, day := 6, hour := 9, minute := 5,
                      second := 47, millisecond := 12 } = true ∧
    resultDt (toISOString { year := 2026, month := 11, day := 6, hour := 9, minute := 5,
                            second := 47, millisecond := 12 }) =
      toZeroPadded (2026 : Int).toNat 4 ++ toZeroPadded 11 2 ++ toZeroPadded 6 2 ++ js "T"
        ++ toZeroPadded 9 2 ++ toZeroPadded 5 2 ++ [digitUnit (47 / 10)] ∧
    (resultDt (toISOString { year := 2026, month := 11, day := 6, hour := 9, minute := 5,
                             second := 47, millisecond := 12 })).length = 14 :=
  ⟨by decide,
   (resultDt_shape { year := 2026, month := 11, day := 6, hour := 9, minute := 5,
                     second := 47, millisecond := 12 } (by decide)).1,
   (resultDt_shape { year := 2026, month := 11, day := 6, hour := 9, minute := 5,
                     second := 47, millisecond := 12 } (by decide)).2.1⟩

/-! ## Lemmas on falsy sequences and on the final item code -/

theorem generateItemCode_falsy (o t p q sequence : JSVal) (draw : Nat)
    (hf : truthy sequence = false) :
    generateItemCode o t p q sequence draw = generateItemCode o t p q .undefined draw := by
  have h1 : truthy (orDefault sequence .null) = false := by
    rw [truthy_orDefault_null]; exact hf
  have h2 : truthy (orDefault JSVal.undefined .null) = false := rfl
  unfold generateItemCode
  simp only [h1, h2, Bool.not_false, if_true]

theorem generateItemCode_kept (a b c d s : JSString) (sequence : JSVal) (draw : Nat)
    (ht : truthy sequence = true) (hs : toStr sequence = .ok s) :
    generateItemCode (.str a) (.str b) (.str c) (.str d) sequence draw
      = .ok (a ++ b ++ c ++ d ++ s) := by
  unfold generateItemCode
  simp only [orDefault_of_truthy sequence .null ht, ht]
  simp [orDefault, toStr, hs]

theorem strictEqualsZero_shape (v : JSVal) (h : strictEqualsZero v = true) :
    ∃ neg e, v = .num (.fin neg 0 e) := by
  cases v with
  | num x =>
    cases x with
    | fin neg s e =>
      simp only [strictEqualsZero, decide_eq_true_eq] at h
      exact ⟨neg, e, by rw [h]⟩
    | nan => simp [strictEqualsZero] at h
    | inf neg => simp [strictEqualsZero] at h
  | undefined => simp [strictEqualsZero] at h
  | null => simp [strictEqualsZero] at h
  | bool b => simp [strictEqualsZero] at h
  | str s => simp [strictEqualsZero] at h
  | arr items => simp [strictEqualsZero] at h
  | obj members => simp [strictEqualsZero] at h

theorem postItems_success (data : List (JSString × JSVal)) (draw : Nat) (iso : JSString)
    (store : Store) (hv : missingFields (requiredFields data) = [])
    (h200 : (postItems (.obj data) draw iso store).1.status = 200) :
    ∃ code, finalItemCd data draw = .ok code ∧
      postItems (.obj data) draw iso store =
        (itemSavedResponse code iso,
         [{ path := [.str (js "admin"), getProp data (js "adminId"),
                     .str (js "district"), getProp data (js "districtId"),
                     .str (js "school"), getProp data (js "schoolId"),
                     .str (js "inventory"), code],
            itemCd := code },
          { path := [.str (js "vsdc_items"), code], itemCd := code }]) := by
  have h500 : serverError.status ≠ 200 := by decide
  simp only [postItems, destructure, hv, List.length_nil, gt_iff_lt, lt_self_iff_false,
    if_false] at h200 ⊢
  cases hc : finalItemCd data draw with
  | error err =>
    simp only [hc] at h200
    exact absurd h200 h500
  | ok code =>
    simp only [hc] at h200 ⊢
    refine ⟨code, rfl, ?_⟩
    split at h200
    · exact absurd h200 h500
    · split at h200
      · exact absurd h200 h500
      · split at h200
        · exact absurd h200 h500
        · split at h200
          · exact absurd h200 h500
          · split at h200
            · exact absurd h200 h500
            · simp_all

/-- C21, as stated, fails: the empty array is a truthy sequence, it is kept
and rendered as the empty string, so the result ends with an empty sequence
field. -/
theorem generateItemCode_falsy_sequence_counterexample :
    truthy (.arr []) = true ∧
    generateItemCode (.str (js "RW")) (.str (js "2")) (.str (js "NT")) (.str (js "U"))
      (.arr []) 12 = .ok (js "RW" ++ js "2" ++ js "NT" ++ js "U" ++ js "") ∧
    generateItemCode (.str (js "RW")) (.str (js "2")) (.str (js "NT")) (.str (js "U"))
      (.arr []) 12 = .ok (js "RW2NTU") := by
  decide

/-- C21 (amended): `generateItemCode` treats every falsy sequence as not
supplied. The empty string, the number 0, `null` and `undefined` are falsy; for
a falsy sequence the value is discarded and the result is the one of the call
without a sequence: the components followed by the draw as 7 decimal digits.
So for a sequence that is falsy or a string the sequence field is never empty.
A truthy sequence is kept: the sequence field is its rendering as a string. -/
theorem generateItemCode_falsy_sequence (a b c d : JSString) (draw : Nat)
    (hn : draw < 10 ^ 7) :
    (truthy (.str (js "")) = false ∧ (∀ neg e, truthy (.num (.fin neg 0 e)) = false) ∧
      truthy .null = false ∧ truthy .undefined = false) ∧
    (∀ sequence, truthy sequence = false →
      ∃ seq : JSString,
        generateItemCode (.str a) (.str b) (.str c) (.str d) sequence draw
          = .ok (a ++ b ++ c ++ d ++ seq) ∧
        seq.length = 7 ∧ seq ≠ [] ∧ (∀ u ∈ seq, isDigit u = true) ∧ decimalValue seq = draw) ∧
    (∀ o t p q sequence : JSVal, truthy sequence = false →
      generateItemCode o t p q sequence draw = generateItemCode o t p q .undefined draw) ∧
    (∀ (sequence : JSVal) (s : JSString), truthy sequence = true → toStr sequence = .ok s →
      generateItemCode (.str a) (.str b) (.str c) (.str d) sequence draw
        = .ok (a ++ b ++ c ++ d ++ s)) ∧
    (∀ s : JSString,
      ∃ seq : JSString,
        generateItemCode (.str a) (.str b) (.str c) (.str d) (.str s) draw
          = .ok (a ++ b ++ c ++ d ++ seq) ∧
        seq ≠ [] ∧ (s ≠ [] → seq = s)) := by
  have hseq := generated_sequence draw hn
  have hne : padStart (numberToString (JSNumber.ofNat draw)) 7 (js "0") ≠ [] := by
    intro hnil
    have h7 := hseq.1
    rw [hnil] at h7
    exact absurd h7 (by decide)
  refine ⟨⟨rfl, fun _ _ => rfl, rfl, rfl⟩, ?_, ?_, ?_, ?_⟩
  · intro sequence hf
    refine ⟨_, ?_, hseq.1, hne, hseq.2.1, hseq.2.2⟩
    rw [generateItemCode_falsy _ _ _ _ sequence draw hf, generateItemCode_generated]
  · intro o t p q sequence hf
    exact generateItemCode_falsy o t p q sequence draw hf
  · intro sequence s ht hs
    exact generateItemCode_kept a b c d s sequence draw ht hs
  · intro s
    by_cases hs : s = []
    · subst hs
      exact ⟨_, generateItemCode_empty a b c d draw, hne, fun h => absurd rfl h⟩
    · exact ⟨s, generateItemCode_supplied a b c d s hs draw, hs, fun _ => rfl⟩

theorem generateItemCode_falsy_sequence_witness :
    12 < 10 ^ 7 ∧ truthy (.num (.fin false 0 0)) = false ∧
    ∃ seq : JSString,
      generateItemCode (.str (js "RW")) (.str (js "2")) (.str (js "NT")) (.str (js "U"))
          (.num (.fin false 0 0)) 12
        = .ok (js "RW" ++ js "2" ++ js "NT" ++ js "U" ++ seq) ∧
      seq.length = 7 ∧ seq ≠ [] ∧ (∀ u ∈ seq, isDigit u = true) ∧ decimalValue seq = 12 :=
  ⟨by norm_num, rfl,
   (generateItemCode_falsy_sequence (js "RW") (js "2") (js "NT") (js "U") 12
      (by norm_num)).2.1 (.num (.fin false 0 0)) rfl⟩

/-- Sample calls with the four falsy sequences of the claim, with `false`, and
with truthy sequences that are kept (a string and a number). -/
theorem generateItemCode_sequence_samples :
    generateItemCode (.str (js "RW")) (.str (js "2")) (.str (js "NT")) (.str (js "U"))
      (.str (js "")) 12 = .ok (js "RW2NTU0000012") ∧
    generateItemCode (.str (js "RW")) (.str (js "2")) (.str (js "NT")) (.str (js "U"))
      (.num (.fin false 0 0)) 12 = .ok (js "RW2NTU0000012") ∧
    generateItemCode (.str (js "RW")) (.str (js "2")) (.str (js "NT")) (.str (js "U"))
      .null 12 = .ok (js "RW2NTU0000012") ∧
    generateItemCode (.str (js "RW")) (.str (js "2")) (.str (js "NT")) (.str (js "U"))
      .undefined 12 = .ok (js "RW2NTU0000012") ∧
    generateItemCode (.str (js "RW")) (.str (js "2")) (.str (js "NT")) (.str (js "U"))
      (.bool false) 12 = .ok (js "RW2NTU0000012") ∧
    generateItemCode (.str (js "RW")) (.str (js "2")) (.str (js "NT")) (.str (js "U"))
      (.str (js "7")) 12 = .ok (js "RW2NTU7") ∧
    generateItemCode (.str (js "RW")) (.str (js "2")) (.str (js "NT")) (.str (js "U"))
      (.num (.fin false 42 0)) 12 = .ok (js "RW2NTU42") := by
  decide

/-- C22: in `POST /api/items`, for a request that passes the required-field
check, the final item code is the supplied `itemCd` whenever `itemCd` is
truthy; `itemCd` is falsy after the check only when it is the number 0, and
only then is `generateItemCode` called. A success response returns the final
item code as `data.itemId`, and the two documents written are keyed by it. A
request whose `itemCd` is absent (`undefined`), `null` or the empty string does
not pass the check: it is answered with status 400 and nothing is written. -/
theorem postItems_final_item_code (data : List (JSString × JSVal)) (draw : Nat)
    (iso : JSString) (store : Store) :
    (missingFields (requiredFields data) = [] →
      (truthy (getProp data (js "itemCd")) = true →
        finalItemCd data draw = .ok (getProp data (js "itemCd"))) ∧
      (truthy (getProp data (js "itemCd")) = false →
        (∃ neg e, getProp data (js "itemCd") = .num (.fin neg 0 e)) ∧
        finalItemCd data draw =
          (match generateItemCode (getProp data (js "orgnNatCd"))
              (getProp data (js "itemTyCd")) (getProp data (js "pkgUnitCd"))
              (getProp data (js "qtyUnitCd")) .undefined draw with
           | .error err => .error err
           | .ok code => .ok (.str code))) ∧
      ((postItems (.obj data) draw iso store).1.status = 200 →
        ∃ code, finalItemCd data draw = .ok code ∧
          getProp (postItems (.obj data) draw iso store).1.data (js "itemId") = code ∧
          (postItems (.obj data) draw iso store).2 =
            [{ path := [.str (js "admin"), getProp data (js "adminId"),
                        .str (js "district"), getProp data (js "districtId"),
                        .str (js "school"), getProp data (js "schoolId"),
                        .str (js "inventory"), code],
               itemCd := code },
             { path := [.str (js "vsdc_items"), code], itemCd := code }])) ∧
    ((getProp data (js "itemCd") = .undefined ∨ getProp data (js "itemCd") = .null ∨
        getProp data (js "itemCd") = .str []) →
      js "itemCd" ∈ missingFields (requiredFields data) ∧
      (postItems (.obj data) draw iso store).1.status = 400 ∧
      (postItems (.obj data) draw iso store).2 = []) := by
  constructor
  · intro hv
    refine ⟨?_, ?_, ?_⟩
    · intro ht
      simp only [finalItemCd, ht, if_true]
    · intro hf
      constructor
      · have hpres := (missingFields_eq_nil_iff data).mp hv (js "itemCd") (by decide)
        rcases hpres with h | h
        · rw [hf] at h; exact absurd h (by decide)
        · exact strictEqualsZero_shape _ h
      · simp [finalItemCd, hf]
    · intro h200
      obtain ⟨code, hcode, hrun⟩ := postItems_success data draw iso store hv h200
      refine ⟨code, hcode, ?_, ?_⟩
      · rw [hrun]; rfl
      · rw [hrun]
  · intro hshape
    have hmem : js "itemCd" ∈ missingFields (requiredFields data) := by
      rw [mem_missingFields data (js "itemCd") (by decide), missing_iff_shape]
      rcases hshape with h | h | h
      · exact Or.inl h
      · exact Or.inr (Or.inl h)
      · exact Or.inr (Or.inr (Or.inr (Or.inl h)))
    have hne : missingFields (requiredFields data) ≠ [] := by
      intro hnil
      rw [hnil] at hmem
      cases hmem
    rw [postItems_of_missing data (.obj data) draw iso store rfl hne]
    exact ⟨hmem, rfl, rfl⟩

theorem postItems_final_item_code_witness :
    missingFields (requiredFields
      (sampleItemBody ++ [(js "itemCd", JSVal.num (.fin false 0 0))])) = [] ∧
    truthy (getProp (sampleItemBody ++ [(js "itemCd", JSVal.num (.fin false 0 0))])
      (js "itemCd")) = false ∧
    ((∃ neg e, getProp (sampleItemBody ++ [(js "itemCd", JSVal.num (.fin false 0 0))])
        (js "itemCd") = .num (.fin neg 0 e)) ∧
      finalItemCd (sampleItemBody ++ [(js "itemCd", JSVal.num (.fin false 0 0))]) 12 =
        (match generateItemCode
            (getProp (sampleItemBody ++ [(js "itemCd", JSVal.num (.fin false 0 0))])
              (js "orgnNatCd"))
            (getProp (sampleItemBody ++ [(js "itemCd", JSVal.num (.fin false 0 0))])
              (js "itemTyCd"))
            (getProp (sampleItemBody ++ [(js "itemCd", JSVal.num (.fin false 0 0))])
              (js "pkgUnitCd"))
            (getProp (sampleItemBody ++ [(js "itemCd", JSVal.num (.fin false 0 0))])
              (js "qtyUnitCd")) .undefined 12 with
         | .error err => .error err
         | .ok code => .ok (.str code))) :=
  ⟨by decide, rfl,
   ((postItems_final_item_code
      (sampleItemBody ++ [(js "itemCd", JSVal.num (.fin false 0 0))]) 12
      (js "2026-01-01T00:00:00.000Z") { refOk := fun _ => true, setOk := fun _ => true }).1
      (by decide)).2.1 rfl⟩

/-- Sample runs of `POST /api/items` on the item code: a supplied code is the
key; with `itemCd` the number 0 the generated code is the key; with `itemCd`
the empty string the request is rejected. -/
theorem postItems_item_code_samples :
    finalItemCd sampleItemBody 12 = .ok (.str (js "RW2NTU0000012")) ∧
    finalItemCd (sampleItemBody ++ [(js "itemCd", JSVal.str (js "MY-CODE"))]) 12
      = .ok (.str (js "MY-CODE")) ∧
    finalItemCd (sampleItemBody ++ [(js "itemCd", JSVal.num (.fin false 0 0))]) 345
      = .ok (.str (js "RW2NTU0000345")) ∧
    (postItems (.obj (sampleItemBody ++ [(js "itemCd", JSVal.num (.fin false 0 0))])) 345
        (js "2026-01-01T00:00:00.000Z")
        { refOk := fun _ => true, setOk := fun _ => true }).1
      = itemSavedResponse (.str (js "RW2NTU0000345")) (js "2026-01-01T00:00:00.000Z") ∧
    (postItems (.obj (sampleItemBody ++ [(js "itemCd", JSVal.str (js ""))])) 345
        (js "2026-01-01T00:00:00.000Z")
        { refOk := fun _ => true, setOk := fun _ => true }).1
      = missingFieldsResponse [js "itemCd"] := by
  refine ⟨rfl, rfl, rfl, rfl, rfl⟩

end Vsdc
